import Mathlib

/-!
# Verification of the cashio-api ledger accounting core

Shallow embedding of the balance / position-tracking engine of the
`cashio-api` repository (`app/repositories/transaction_crud.py`,
`mf_transaction_crud.py`, `mutual_fund_crud.py`, `asset_transaction_crud.py`,
`physical_asset_crud.py`, `account_crud.py`, `app/utils/xirr_calculator.py`).

Conventions of the embedding:
* Python `Decimal` amounts are modelled as `Rat` (exact arithmetic; the source
  uses full-precision decimal arithmetic for all the operations the claims
  touch).
* The SQLAlchemy session is modelled as an explicit `DB` state record threaded
  through every repository function.  `db.commit()` boundaries matter for the
  state an aborted request leaves behind: every function below returns
  `Except (ApiError × DB) …` where the `DB` carried by an error is the state
  that is durably committed when the corresponding `raise` fires in the
  source (in-memory changes that were still pending at that point are
  discarded, mirroring the session rollback at request teardown).
* `datetime` values are modelled as integers (days); `created_at` timestamps
  are drawn from a monotone `clock` counter in `DB`.  `updated_at` /
  `last_nav_update` style audit fields that no claim mentions are omitted.
* UUID transfer ids are modelled as naturals drawn from `next_transfer_id`.
* HTTP error details are modelled by the enumeration `ApiError`, one
  constructor per `raise` site that the embedded functions can reach.
-/

set_option maxHeartbeats 1600000

namespace Cashio

/-- Python's substring test `needle in hay` (contiguous substring). -/
def strIn (needle hay : String) : Bool :=
  decide (List.IsInfix needle.toList hay.toList)

/-- One constructor per reachable `raise` site in the embedded repository
functions (`HTTPException` / `ValueError` in the source). -/
inductive ApiError where
  | accountNotFound
  | groupAccount
  | splitCreditMismatch
  | splitDebitMismatch
  | transactionNotFound
  | accessDenied
  | sameAccountTransfer
  | notUserAccount
  | destinationAmountForbidden
  | destinationAmountRequired
  | invalidTransferAmount
  | invalidTransferPair
  | invalidTransactionAmounts
  | mutualFundNotFound
  | accountIdRequired
  | nonPositiveAmount
  | negativeCharges
  | expenseCategoryRequired
  | invalidExpenseCategory
  | insufficientUnits
  | insufficientQuantity
  | insufficientBalance
  | targetFundRequired
  | targetFundNotFound
  | sameFundSwitch
  | nonPositiveNav
  | costBasisRequired
  | mfTransactionNotFound
  | physicalAssetNotFound
  | invalidAccountForLedger
  | assetTransactionNotFound
  | fundHasUnits
  | accountExists
  | invalidParentAccount
  deriving Repr, DecidableEq

/-- `models.Account`, with `ledger.user_id` flattened into the record (the
source only ever reads `account.ledger.user_id`). -/
structure Account where
  account_id : Nat
  ledger_id : Nat
  user_id : Nat
  name : String
  type : String
  is_group : Bool
  opening_balance : Rat
  balance : Rat
  net_balance : Rat
  parent_account_id : Option Nat := none
  deriving Repr, DecidableEq

/-- `models.Transaction`. -/
structure Txn where
  transaction_id : Nat
  account_id : Nat
  category_id : Option Nat := none
  credit : Rat
  debit : Rat
  date : Int
  is_split : Bool := false
  is_transfer : Bool := false
  is_asset_transaction : Bool := false
  is_mf_transaction : Bool := false
  transfer_id : Option Nat := none
  transfer_type : Option String := none
  deriving Repr, DecidableEq

/-- `models.TransactionSplit`. -/
structure TransactionSplit where
  split_id : Nat
  transaction_id : Nat
  category_id : Option Nat
  credit : Rat
  debit : Rat
  deriving Repr, DecidableEq

/-- `models.Tag`. -/
structure Tag where
  tag_id : Nat
  user_id : Nat
  name : String
  deriving Repr, DecidableEq

/-- `models.TransactionTag` (link table). -/
structure TransactionTag where
  transaction_id : Nat
  tag_id : Nat
  deriving Repr, DecidableEq

/-- `models.Category`, with `user_id` ownership. -/
structure Category where
  category_id : Nat
  user_id : Nat
  type : String
  deriving Repr, DecidableEq

/-- `models.MutualFund` running state, with `ledger.user_id` flattened. -/
structure MutualFund where
  mutual_fund_id : Nat
  ledger_id : Nat
  user_id : Nat
  total_units : Rat
  average_cost_per_unit : Rat
  latest_nav : Rat
  current_value : Rat
  total_realized_gain : Rat
  total_invested_cash : Rat
  external_cash_invested : Rat
  deriving Repr, DecidableEq

/-- `models.PhysicalAsset` running state. -/
structure PhysicalAsset where
  physical_asset_id : Nat
  ledger_id : Nat
  total_quantity : Rat
  average_cost_per_unit : Rat
  latest_price_per_unit : Rat
  last_price_update : Option Int := none
  current_value : Rat
  deriving Repr, DecidableEq

/-- `models.MfTransaction`.  Fields the source may leave `NULL` are `Option`. -/
structure MfTxn where
  mf_transaction_id : Nat
  ledger_id : Nat
  mutual_fund_id : Nat
  transaction_type : String
  units : Rat
  nav_per_unit : Rat
  total_amount : Rat
  amount_excluding_charges : Option Rat := none
  other_charges : Option Rat := none
  account_id : Option Nat := none
  target_fund_id : Option Nat := none
  financial_transaction_id : Option Nat := none
  linked_charge_transaction_id : Option Nat := none
  linked_transaction_id : Option Nat := none
  realized_gain : Option Rat := none
  cost_basis_of_units_sold : Option Rat := none
  transaction_date : Int
  created_at : Nat
  deriving Repr, DecidableEq

/-- `models.AssetTransaction`. -/
structure AssetTransaction where
  asset_transaction_id : Nat
  ledger_id : Nat
  physical_asset_id : Nat
  transaction_type : String
  quantity : Rat
  price_per_unit : Rat
  total_amount : Rat
  account_id : Nat
  financial_transaction_id : Nat
  transaction_date : Int
  created_at : Nat
  deriving Repr, DecidableEq

/-- The relational store reachable through the SQLAlchemy session, plus the
id sequences and a monotone clock for `created_at` stamps. -/
structure DB where
  accounts : List Account := []
  transactions : List Txn := []
  splits : List TransactionSplit := []
  tags : List Tag := []
  transaction_tags : List TransactionTag := []
  categories : List Category := []
  mutual_funds : List MutualFund := []
  physical_assets : List PhysicalAsset := []
  mf_transactions : List MfTxn := []
  asset_transactions : List AssetTransaction := []
  next_transaction_id : Nat := 1
  next_split_id : Nat := 1
  next_tag_id : Nat := 1
  next_account_id : Nat := 1
  next_mf_transaction_id : Nat := 1
  next_asset_transaction_id : Nat := 1
  next_transfer_id : Nat := 1
  clock : Nat := 1
  deriving Repr, DecidableEq

/-- ORM mutation of the (identity-mapped) account row with a given id. -/
def updAccount (accs : List Account) (i : Nat) (f : Account → Account) : List Account :=
  accs.map fun a => if a.account_id == i then f a else a

/-- ORM mutation of the mutual-fund row with a given id. -/
def updFund (fs : List MutualFund) (i : Nat) (f : MutualFund → MutualFund) : List MutualFund :=
  fs.map fun x => if x.mutual_fund_id == i then f x else x

/-- ORM mutation of the physical-asset row with a given id. -/
def updAsset (ps : List PhysicalAsset) (i : Nat) (f : PhysicalAsset → PhysicalAsset) : List PhysicalAsset :=
  ps.map fun x => if x.physical_asset_id == i then f x else x

/-- `account.net_balance = account.opening_balance + account.balance`, the
recomputation statement that follows every balance mutation in the source. -/
def setNet (a : Account) : Account :=
  { a with net_balance := a.opening_balance + a.balance }

/-- Sequencing of two store-threading steps: a raised `HTTPException`
propagates (with the state committed so far), a success feeds the next
statement block. -/
def exBind {α β : Type} (E : Except (ApiError × DB) (DB × α))
    (f : DB → α → Except (ApiError × DB) (DB × β)) : Except (ApiError × DB) (DB × β) :=
  match E with
  | .error e => .error e
  | .ok (db, a) => f db a

/-- `schemas.account_schema.AccountCreate`.  The source allows
`opening_balance = None`, which would violate the `NOT NULL` column; that
degenerate input is outside the model. -/
structure AccountCreate where
  name : String
  type : String
  is_group : Bool := false
  opening_balance : Rat
  parent_account_id : Option Nat := none
  deriving Repr, DecidableEq

/-- `schemas.account_schema.AccountUpdate` (`None` = field not provided). -/
structure AccountUpdate where
  name : Option String := none
  opening_balance : Option Rat := none
  parent_account_id : Option Nat := none
  deriving Repr, DecidableEq

/-- `account_crud.create_account`. -/
def create_account (db : DB) (ledger_id : Nat) (account : AccountCreate) :
    Except (ApiError × DB) (DB × Account) :=
  match db.accounts.find? (fun a => a.ledger_id == ledger_id && a.name == account.name) with
  | some _ => .error (.accountExists, db)
  | none =>
    let parent_ok :=
      match account.parent_account_id with
      | none => true
      | some pid =>
        (db.accounts.find? (fun a =>
          a.account_id == pid && a.ledger_id == ledger_id && a.is_group)).isSome
    if !parent_ok then .error (.invalidParentAccount, db)
    else
      let user_id :=
        ((db.accounts.find? (fun a => a.ledger_id == ledger_id)).map Account.user_id).getD 0
      let db_account : Account := {
        account_id := db.next_account_id
        ledger_id := ledger_id
        user_id := user_id
        name := account.name
        type := account.type
        is_group := account.is_group
        opening_balance := account.opening_balance
        balance := 0
        net_balance := account.opening_balance
        parent_account_id := account.parent_account_id }
      .ok ({ db with accounts := db.accounts ++ [db_account],
                     next_account_id := db.next_account_id + 1 }, db_account)

/-- The conditional field assignments of `account_crud.update_account`
(name, opening balance with its `net_balance` recomputation, parent). -/
def applyAccountPatch (account_update : AccountUpdate) (a : Account) : Account :=
  let a := match account_update.name with
    | some n => { a with name := n }
    | none => a
  let a := match account_update.opening_balance with
    | some ob => setNet { a with opening_balance := ob }
    | none => a
  match account_update.parent_account_id with
  | some pid => { a with parent_account_id := some pid }
  | none => a

/-- `account_crud.update_account`. -/
def update_account (db : DB) (account_id : Nat) (account_update : AccountUpdate) :
    Except (ApiError × DB) (DB × Unit) :=
  match db.accounts.find? (fun a => a.account_id == account_id) with
  | none => .error (.accountNotFound, db)
  | some _ =>
    let parent_check : Except ApiError Unit :=
      match account_update.parent_account_id with
      | none => .ok ()
      | some pid =>
        match db.accounts.find? (fun a => a.account_id == pid) with
        | none => .error .invalidParentAccount
        | some parent => if !parent.is_group then .error .invalidParentAccount else .ok ()
    match parent_check with
    | .error e => .error (e, db)
    | .ok _ =>
      .ok ({ db with accounts := updAccount db.accounts account_id (applyAccountPatch account_update) }, ())

/-- The body of `transaction_crud.update_account_balance` once the account has
been fetched: polarity dispatch on `(credit, debit)`, sign dispatch on the
account type, optional reversal, then the `net_balance` recomputation. -/
def update_account_balance_core (account : Account) (t_credit t_debit : Rat)
    (reverse : Bool) : Except ApiError Account :=
  if t_credit > 0 ∧ t_debit = 0 then
    let account :=
      if strIn "asset" account.type then
        { account with balance :=
            if reverse then account.balance - t_credit else account.balance + t_credit }
      else if strIn "liability" account.type then
        { account with balance :=
            if reverse then account.balance + t_credit else account.balance - t_credit }
      else account
    .ok (setNet account)
  else if t_debit > 0 ∧ t_credit = 0 then
    let account :=
      if strIn "asset" account.type then
        { account with balance :=
            if reverse then account.balance + t_debit else account.balance - t_debit }
      else if strIn "liability" account.type then
        { account with balance :=
            if reverse then account.balance - t_debit else account.balance + t_debit }
      else account
    .ok (setNet account)
  else .error .invalidTransactionAmounts

/-- `transaction_crud.update_account_balance` (fetch, mutate, commit). -/
def update_account_balance (db : DB) (t_account_id : Nat) (t_credit t_debit : Rat)
    (reverse : Bool) : Except (ApiError × DB) (DB × Unit) :=
  match db.accounts.find? (fun a => a.account_id == t_account_id) with
  | none => .error (.accountNotFound, db)
  | some account =>
    match update_account_balance_core account t_credit t_debit reverse with
    | .error e => .error (e, db)
    | .ok account' =>
      .ok ({ db with accounts := updAccount db.accounts t_account_id (fun _ => account') }, ())

/-- The inline balance update of `transaction_crud.create_transaction`
(lines 128-141): dispatch on the *request* type string, then the
`net_balance` recomputation. -/
def createTxnBalanceUpdate (a : Account) (ty : String) (credit debit : Rat) : Account :=
  let a :=
    if strIn "asset" a.type then
      if strIn "income" ty then { a with balance := a.balance + credit }
      else if strIn "expense" ty then { a with balance := a.balance - debit }
      else a
    else if strIn "liability" a.type then
      if strIn "income" ty then { a with balance := a.balance - credit }
      else if strIn "expense" ty then { a with balance := a.balance + debit }
      else a
    else a
  setNet a

/-- `schemas.transaction_schema.TransactionSplitCreate`. -/
structure SplitCreate where
  category_id : Nat
  credit : Rat := 0
  debit : Rat := 0
  deriving Repr, DecidableEq

/-- `schemas.transaction_schema.TransactionCreate`.  Tags are modelled by
their names (`TagCreate` carries only a name). -/
structure TransactionCreate where
  account_id : Nat
  category_id : Option Nat := none
  type : String
  credit : Rat := 0
  debit : Rat := 0
  date : Int
  is_transfer : Bool := false
  transfer_id : Option Nat := none
  transfer_type : Option String := none
  is_split : Bool := false
  is_asset_transaction : Bool := false
  splits : Option (List SplitCreate) := none
  tags : Option (List String) := none
  deriving Repr, DecidableEq

/-- The find-or-create tag lookup of `create_transaction` (scoped to the
account's owning user). -/
def findOrCreateTag (db : DB) (user_id : Nat) (name : String) : DB × Nat :=
  match db.tags.find? (fun t => t.name == name && t.user_id == user_id) with
  | some t => (db, t.tag_id)
  | none =>
    let t : Tag := { tag_id := db.next_tag_id, user_id := user_id, name := name }
    ({ db with tags := db.tags ++ [t], next_tag_id := db.next_tag_id + 1 }, t.tag_id)

/-- The tag-linking loop of `create_transaction`. -/
def addTransactionTags (db : DB) (user_id transaction_id : Nat) :
    List String → DB
  | [] => db
  | n :: rest =>
    let (db1, tid) := findOrCreateTag db user_id n
    let db2 := { db1 with transaction_tags :=
      db1.transaction_tags ++ [{ transaction_id := transaction_id, tag_id := tid }] }
    addTransactionTags db2 user_id transaction_id rest

/-- The split-insertion loop of `create_transaction`. -/
def addSplits (db : DB) (transaction_id : Nat) : List SplitCreate → DB
  | [] => db
  | s :: rest =>
    let db1 := { db with
      splits := db.splits ++ [{ split_id := db.next_split_id,
                                transaction_id := transaction_id,
                                category_id := some s.category_id,
                                credit := s.credit, debit := s.debit }],
      next_split_id := db.next_split_id + 1 }
    addSplits db1 transaction_id rest

/-- The split block of `create_transaction` (lines 146-191): validate that
split credits (income) or debits (expense) sum to the transaction amount,
then insert the split rows.  Skipped when `splits` is `None` or empty
(Python truthiness). -/
def validate_and_add_splits (db : DB) (transaction : TransactionCreate)
    (credit debit : Rat) (transaction_id : Nat) : Except (ApiError × DB) DB :=
  if transaction.is_split ∧ transaction.splits.getD [] ≠ [] then
    let splits := transaction.splits.getD []
    let total_split_credit := (splits.map SplitCreate.credit).sum
    let total_split_debit := (splits.map SplitCreate.debit).sum
    if transaction.type == "income" ∧ total_split_credit ≠ credit then
      .error (.splitCreditMismatch, db)
    else if transaction.type == "expense" ∧ total_split_debit ≠ debit then
      .error (.splitDebitMismatch, db)
    else .ok (addSplits db transaction_id splits)
  else .ok db

/-- The tail of `create_transaction` once the row is persisted and the
balance committed: split validation/insertion, then tag resolution. -/
def create_transaction_stage2 (db : DB) (transaction : TransactionCreate)
    (user_id : Nat) (db_transaction : Txn) : Except (ApiError × DB) (DB × Txn) :=
  match validate_and_add_splits db transaction transaction.credit transaction.debit
      db_transaction.transaction_id with
  | .error e => .error e
  | .ok db =>
    let db :=
      if (transaction.tags.getD []) ≠ [] then
        addTransactionTags db user_id db_transaction.transaction_id (transaction.tags.getD [])
      else db
    .ok (db, db_transaction)

/-- `transaction_crud.create_transaction`.

The transaction row and the balance update are each committed *before* the
split-sum validation runs, so the `DB` carried by a split-mismatch error
already contains both (the source's `db.rollback()` at that point has nothing
pending to undo). -/
def create_transaction (db : DB) (transaction : TransactionCreate) :
    Except (ApiError × DB) (DB × Txn) :=
  match db.accounts.find? (fun a => a.account_id == transaction.account_id) with
  | none => .error (.accountNotFound, db)
  | some account =>
  if account.is_group then .error (.groupAccount, db)
  else
    let credit := transaction.credit
    let debit := transaction.debit
    let db_transaction : Txn := {
      transaction_id := db.next_transaction_id
      account_id := transaction.account_id
      category_id := transaction.category_id
      credit := credit
      debit := debit
      date := transaction.date
      is_split := transaction.is_split
      is_transfer := transaction.is_transfer
      is_asset_transaction := transaction.is_asset_transaction
      is_mf_transaction := false
      transfer_id := transaction.transfer_id
      transfer_type := transaction.transfer_type }
    let db := { db with transactions := db.transactions ++ [db_transaction],
                        next_transaction_id := db.next_transaction_id + 1 }
    let balance_update := fun a => createTxnBalanceUpdate a transaction.type credit debit
    let db := { db with accounts := updAccount db.accounts transaction.account_id balance_update }
    create_transaction_stage2 db transaction account.user_id db_transaction

/-- `schemas.transaction_schema.TransferCreate`. -/
structure TransferCreate where
  source_account_id : Nat
  destination_account_id : Nat
  source_amount : Rat
  destination_amount : Option Rat := none
  date : Int
  tags : Option (List String) := none
  deriving Repr, DecidableEq

/-- The leg-creation tail of `create_transfer_transaction` once the
destination amount is resolved: amount validation, a fresh transfer id, an
expense leg on the source and an income leg on the destination, both via
`create_transaction`. -/
def transfer_legs (db : DB) (transfer : TransferCreate) (destination_amount : Rat) :
    Except (ApiError × DB) DB :=
  if transfer.source_amount ≤ 0 ∨ destination_amount ≤ 0 then
    .error (.invalidTransferAmount, db)
  else
    let transfer_id := db.next_transfer_id
    let db := { db with next_transfer_id := db.next_transfer_id + 1 }
    let transferOut : TransactionCreate := {
      account_id := transfer.source_account_id
      category_id := none
      type := "expense"
      credit := 0
      debit := transfer.source_amount
      date := transfer.date
      is_split := false
      is_transfer := true
      transfer_id := some transfer_id
      transfer_type := some "source"
      tags := transfer.tags }
    match create_transaction db transferOut with
    | .error e => .error e
    | .ok (db, _) =>
      let transferIn : TransactionCreate := {
        account_id := transfer.destination_account_id
        category_id := none
        type := "income"
        credit := destination_amount
        debit := 0
        date := transfer.date
        is_split := false
        is_transfer := true
        transfer_id := some transfer_id
        transfer_type := some "destination"
        tags := transfer.tags }
      match create_transaction db transferIn with
      | .error e => .error e
      | .ok (db, _) => .ok db

/-- `transaction_crud.create_transfer_transaction`: validations, then an
expense leg on the source and an income leg on the destination sharing a
fresh transfer id, both via `create_transaction`. -/
def create_transfer_transaction (db : DB) (transfer : TransferCreate) (user_id : Nat) :
    Except (ApiError × DB) DB :=
  match db.accounts.find? (fun a => a.account_id == transfer.source_account_id),
        db.accounts.find? (fun a => a.account_id == transfer.destination_account_id) with
  | none, _ => .error (.accountNotFound, db)
  | _, none => .error (.accountNotFound, db)
  | some source_account, some destination_account =>
  if source_account.account_id == destination_account.account_id then
    .error (.sameAccountTransfer, db)
  else if source_account.user_id != user_id || destination_account.user_id != user_id then
    .error (.notUserAccount, db)
  else if source_account.is_group || destination_account.is_group then
    .error (.groupAccount, db)
  else
    let dest_amount : Except ApiError Rat :=
      if source_account.ledger_id == destination_account.ledger_id then
        match transfer.destination_amount with
        | some _ => .error .destinationAmountForbidden
        | none => .ok transfer.source_amount
      else
        match transfer.destination_amount with
        | none => .error .destinationAmountRequired
        | some v => .ok v
    match dest_amount with
    | .error e => .error (e, db)
    | .ok destination_amount => transfer_legs db transfer destination_amount

/-- The reversal-and-removal loop body of `delete_transaction`: reverse one
row's balance effect, then mark the row deleted. -/
def deleteOneTransaction (db : DB) (t : Txn) : Except (ApiError × DB) DB :=
  match update_account_balance db t.account_id t.credit t.debit true with
  | .error e => .error e
  | .ok (db, _) =>
    .ok { db with transactions :=
      db.transactions.filter (fun x => x.transaction_id != t.transaction_id) }

/-- Fold of `deleteOneTransaction` over a list of rows (the `for trans in
transfer_transactions` loop). -/
def deleteTransactionList (db : DB) : List Txn → Except (ApiError × DB) DB
  | [] => .ok db
  | t :: rest =>
    match deleteOneTransaction db t with
    | .error e => .error e
    | .ok db1 => deleteTransactionList db1 rest

/-- `transaction_crud.delete_transaction`: a transfer leg drags the whole
pair (exactly two rows, else an error) through reversal and removal; a plain
transaction is reversed and removed alone. -/
def delete_transaction (db : DB) (transaction_id user_id : Nat) :
    Except (ApiError × DB) DB :=
  match db.transactions.find? (fun t => t.transaction_id == transaction_id) with
  | none => .error (.transactionNotFound, db)
  | some transaction =>
  match db.accounts.find? (fun a => a.account_id == transaction.account_id) with
  | none => .error (.accountNotFound, db)
  | some account =>
  if account.user_id != user_id then .error (.accountNotFound, db)
  else if transaction.is_transfer then
    let transfer_transactions :=
      db.transactions.filter (fun t => t.transfer_id == transaction.transfer_id)
    if transfer_transactions.length != 2 then .error (.invalidTransferPair, db)
    else deleteTransactionList db transfer_transactions
  else deleteOneTransaction db transaction

/-- `schemas.transaction_schema.TransactionSplitUpdate`. -/
structure SplitUpdate where
  category_id : Option Nat := none
  credit : Rat := 0
  debit : Rat := 0
  deriving Repr, DecidableEq

/-- `schemas.transaction_schema.TransactionUpdate` (`none` = field unset,
matching `dict(exclude_unset=True)`). -/
structure TransactionUpdate where
  account_id : Option Nat := none
  category_id : Option Nat := none
  type : Option String := none
  credit : Option Rat := none
  debit : Option Rat := none
  date : Option Int := none
  is_split : Option Bool := none
  splits : Option (List SplitUpdate) := none
  tags : Option (List String) := none
  deriving Repr, DecidableEq

/-- The `setattr` field-patching loop of `update_transaction` (splits and
tags are handled separately in the source and here). -/
def applyTxnPatch (t : Txn) (u : TransactionUpdate) : Txn :=
  let t := match u.account_id with | some v => { t with account_id := v } | none => t
  let t := match u.category_id with | some v => { t with category_id := some v } | none => t
  let t := match u.credit with | some v => { t with credit := v } | none => t
  let t := match u.debit with | some v => { t with debit := v } | none => t
  let t := match u.date with | some v => { t with date := v } | none => t
  match u.is_split with | some v => { t with is_split := v } | none => t

/-- `transaction_crud.update_transaction`: reverse the original balance
effect, patch the row (replacing splits and tags when provided), then apply
the new balance effect. -/
def update_transaction (db : DB) (transaction_id : Nat) (transaction_update : TransactionUpdate)
    (user_id : Nat) : Except (ApiError × DB) (DB × Txn) :=
  match db.transactions.find? (fun t => t.transaction_id == transaction_id) with
  | none => .error (.transactionNotFound, db)
  | some db_transaction =>
  match db.accounts.find? (fun a => a.account_id == db_transaction.account_id) with
  | none => .error (.accessDenied, db)
  | some account =>
  if account.user_id != user_id then .error (.accessDenied, db)
  else
    match update_account_balance db db_transaction.account_id
        db_transaction.credit db_transaction.debit true with
    | .error e => .error e
    | .ok (db, _) =>
      let new_transaction := applyTxnPatch db_transaction transaction_update
      let replace_row := fun (t : Txn) =>
        if t.transaction_id == transaction_id then new_transaction else t
      let db := { db with transactions := db.transactions.map replace_row }
      let db := match transaction_update.splits with
        | none => db
        | some new_splits =>
          let kept := db.splits.filter (fun s => s.transaction_id != transaction_id)
          let db := { db with splits := kept }
          let as_creates := new_splits.map (fun s =>
            { category_id := s.category_id.getD 0,
              credit := s.credit, debit := s.debit : SplitCreate })
          addSplits db transaction_id as_creates
      let db := match transaction_update.tags with
        | none => db
        | some new_tags =>
          let kept := db.transaction_tags.filter (fun tt => tt.transaction_id != transaction_id)
          let db := { db with transaction_tags := kept }
          addTransactionTags db user_id transaction_id new_tags
      match update_account_balance db new_transaction.account_id
          new_transaction.credit new_transaction.debit false with
      | .error e => .error e
      | .ok (db, _) => .ok (db, new_transaction)

/-- `mutual_fund_crud.update_mutual_fund_balances`: the shared fund state
transition (units delta plus invested-cash delta, weighted-average cost).
Returns the refreshed fund alongside the store, mirroring the source's return
of the identity-mapped `db_fund`. -/
def update_mutual_fund_balances (db : DB) (mutual_fund_id : Nat)
    (units_change total_amount : Rat) : Except (ApiError × DB) (DB × MutualFund) :=
  match db.mutual_funds.find? (fun f => f.mutual_fund_id == mutual_fund_id) with
  | none => .error (.mutualFundNotFound, db)
  | some db_fund =>
    let new_total_units := db_fund.total_units + units_change
    if new_total_units < 0 then .error (.insufficientUnits, db)
    else
      let new_avg_cost : Rat :=
        if new_total_units = 0 then 0
        else
          let current_invested := db_fund.total_units * db_fund.average_cost_per_unit
          let new_invested := current_invested + total_amount
          new_invested / new_total_units
      let fund' := { db_fund with
        total_units := new_total_units
        average_cost_per_unit := new_avg_cost
        current_value := new_total_units * db_fund.latest_nav }
      let replace := fun (_ : MutualFund) => fund'
      .ok ({ db with mutual_funds := updFund db.mutual_funds mutual_fund_id replace }, fund')

/-- `mutual_fund_crud.delete_mutual_fund`: refuses when any units remain. -/
def delete_mutual_fund (db : DB) (mutual_fund_id : Nat) :
    Except (ApiError × DB) (DB × Unit) :=
  match db.mutual_funds.find? (fun f => f.mutual_fund_id == mutual_fund_id) with
  | none => .error (.mutualFundNotFound, db)
  | some db_fund =>
    if db_fund.total_units ≠ 0 then .error (.fundHasUnits, db)
    else
      let kept := db.mutual_funds.filter (fun f => f.mutual_fund_id != mutual_fund_id)
      .ok ({ db with mutual_funds := kept }, ())

/-- `schemas.mutual_funds_schema.MfTransactionCreate`. -/
structure MfTransactionCreate where
  mutual_fund_id : Nat
  transaction_type : String
  units : Rat
  nav_per_unit : Option Rat := none
  amount_excluding_charges : Rat
  other_charges : Rat := 0
  expense_category_id : Option Nat := none
  account_id : Option Nat := none
  target_fund_id : Option Nat := none
  transaction_date : Int
  linked_transaction_id : Option Nat := none
  cost_basis_of_units_sold : Option Rat := none
  deriving Repr, DecidableEq

/-- The local variables of `mf_transaction_crud.create_mf_transaction`
initialised at its top (lines 26-33) and consumed when the `MfTransaction`
row is built. -/
structure MfLocals where
  total_amount : Rat := 0
  financial_transaction_id : Option Nat := none
  nav_per_unit : Option Rat := none
  amount_excluding_charges : Option Rat := none
  other_charges : Option Rat := none
  linked_charge_transaction_id : Option Nat := none
  realized_gain : Option Rat := none
  cost_basis_of_units_sold : Option Rat := none
  deriving Repr, DecidableEq

/-- The buy/sell branch of `create_mf_transaction`.  Commit boundaries: the
main financial row is committed on its own; the account balance updates stay
pending until the commit that follows the charges block, so an
invalid-charge-category error leaves only the main row behind; the
insufficient-units guard for sells fires only after that commit. -/
def mf_buy_sell (db : DB) (ledger_id : Nat) (fund : MutualFund)
    (td : MfTransactionCreate) : Except (ApiError × DB) (DB × MfLocals) :=
  match td.account_id with
  | none => .error (.accountIdRequired, db)
  | some account_id =>
  match db.accounts.find? (fun a => a.account_id == account_id) with
  | none => .error (.accountNotFound, db)
  | some account =>
  if account.ledger_id != ledger_id then .error (.accountNotFound, db)
  else if account.is_group then .error (.groupAccount, db)
  else if td.amount_excluding_charges ≤ 0 then .error (.nonPositiveAmount, db)
  else if td.other_charges < 0 then .error (.negativeCharges, db)
  else if td.other_charges > 0 ∧ td.expense_category_id = none then
    .error (.expenseCategoryRequired, db)
  else
    let amount_excluding_charges := td.amount_excluding_charges
    let other_charges := td.other_charges
    let units := td.units
    let nav_per_unit := amount_excluding_charges / units
    let is_buy := td.transaction_type == "buy"
    let total_amount :=
      if is_buy then amount_excluding_charges + other_charges
      else amount_excluding_charges - other_charges
    let financial_transaction : Txn := {
      transaction_id := db.next_transaction_id
      account_id := account_id
      credit := if is_buy then 0 else amount_excluding_charges
      debit := if is_buy then amount_excluding_charges else 0
      date := td.transaction_date
      is_mf_transaction := true }
    let dbA := { db with transactions := db.transactions ++ [financial_transaction],
                         next_transaction_id := db.next_transaction_id + 1 }
    let financial_transaction_id := financial_transaction.transaction_id
    let account_amount_change :=
      if is_buy then -amount_excluding_charges else amount_excluding_charges
    let shift_main := fun (a : Account) =>
      { a with balance := a.balance + account_amount_change,
               net_balance := a.net_balance + account_amount_change }
    let db_main := { dbA with accounts := updAccount dbA.accounts account_id shift_main }
    exBind (α := Option Nat)
      (if other_charges > 0 then
        let cat_ok := (db.categories.find? (fun c =>
          td.expense_category_id == some c.category_id &&
          c.user_id == fund.user_id && c.type == "expense")).isSome
        if !cat_ok then .error (.invalidExpenseCategory, dbA)
        else
          let charge_transaction : Txn := {
            transaction_id := db_main.next_transaction_id
            account_id := account_id
            category_id := td.expense_category_id
            credit := 0
            debit := other_charges
            date := td.transaction_date
            is_mf_transaction := true }
          let db1 := { db_main with
            transactions := db_main.transactions ++ [charge_transaction],
            next_transaction_id := db_main.next_transaction_id + 1 }
          let shift_charge := fun (a : Account) =>
            { a with balance := a.balance - other_charges,
                     net_balance := a.net_balance - other_charges }
          let db2 := { db1 with accounts := updAccount db1.accounts account_id shift_charge }
          .ok (db2, some charge_transaction.transaction_id)
      else .ok (db_main, none))
      (fun db linked_charge_transaction_id =>
      exBind (α := Rat × Rat)
        (if td.transaction_type == "sell" then
          if fund.total_units < units then .error (.insufficientUnits, db)
          else
            let cost_basis_of_units_sold := units * fund.average_cost_per_unit
            let realized_gain := total_amount - cost_basis_of_units_sold
            let fund_sell_upd := fun (f : MutualFund) =>
              { f with total_realized_gain := f.total_realized_gain + realized_gain,
                       total_invested_cash := f.total_invested_cash - cost_basis_of_units_sold,
                       external_cash_invested := f.external_cash_invested - cost_basis_of_units_sold }
            let db' := { db with
              mutual_funds := updFund db.mutual_funds fund.mutual_fund_id fund_sell_upd }
            .ok (db', realized_gain, cost_basis_of_units_sold)
        else .ok (db, 0, 0))
        (fun db rg_cb =>
        let realized_gain := rg_cb.1
        let cost_basis_of_units_sold := rg_cb.2
        let units_change := if is_buy then units else -units
        let fund_amount_change :=
          if is_buy then amount_excluding_charges else -cost_basis_of_units_sold
        exBind (update_mutual_fund_balances db fund.mutual_fund_id units_change fund_amount_change)
          (fun db fund1 =>
          let db :=
            if is_buy then
              let buy_upd := fun (f : MutualFund) =>
                { f with total_invested_cash := f.total_invested_cash + amount_excluding_charges,
                         external_cash_invested := f.external_cash_invested + amount_excluding_charges }
              { db with mutual_funds := updFund db.mutual_funds fund.mutual_fund_id buy_upd }
            else db
          let nav_upd := fun (f : MutualFund) =>
            { f with latest_nav := nav_per_unit,
                     current_value := fund1.total_units * nav_per_unit }
          let db := { db with mutual_funds := updFund db.mutual_funds fund.mutual_fund_id nav_upd }
          .ok (db, {
            total_amount := total_amount
            financial_transaction_id := some financial_transaction_id
            nav_per_unit := some nav_per_unit
            amount_excluding_charges := some amount_excluding_charges
            other_charges := some other_charges
            linked_charge_transaction_id := linked_charge_transaction_id
            realized_gain := some realized_gain
            cost_basis_of_units_sold := some cost_basis_of_units_sold }))))

/-- The switch_out branch of `create_mf_transaction`. -/
def mf_switch_out (db : DB) (ledger_id : Nat) (fund : MutualFund)
    (td : MfTransactionCreate) : Except (ApiError × DB) (DB × MfLocals) :=
  match td.target_fund_id with
  | none => .error (.targetFundRequired, db)
  | some target_fund_id =>
  match db.mutual_funds.find? (fun f => f.mutual_fund_id == target_fund_id) with
  | none => .error (.targetFundNotFound, db)
  | some target_fund =>
  if target_fund.ledger_id != ledger_id then .error (.targetFundNotFound, db)
  else if target_fund_id == td.mutual_fund_id then .error (.sameFundSwitch, db)
  else if fund.total_units < td.units then .error (.insufficientUnits, db)
  else if td.nav_per_unit.getD 0 ≤ 0 then .error (.nonPositiveNav, db)
  else
    let from_units := td.units
    let from_nav := td.nav_per_unit.getD 0
    let total_value_switched_out := from_units * from_nav
    let cost_basis_of_units_sold := from_units * fund.average_cost_per_unit
    let realized_gain := total_value_switched_out - cost_basis_of_units_sold
    let rg_upd := fun (f : MutualFund) =>
      { f with total_realized_gain := f.total_realized_gain + realized_gain }
    let db := { db with mutual_funds := updFund db.mutual_funds fund.mutual_fund_id rg_upd }
    exBind (update_mutual_fund_balances db fund.mutual_fund_id (-from_units) (-cost_basis_of_units_sold))
      (fun db fund1 =>
      let post_upd := fun (f : MutualFund) =>
        { f with total_invested_cash := f.total_invested_cash - cost_basis_of_units_sold,
                 latest_nav := from_nav,
                 current_value := fund1.total_units * from_nav }
      let db := { db with mutual_funds := updFund db.mutual_funds fund.mutual_fund_id post_upd }
      .ok (db, {
        total_amount := total_value_switched_out
        realized_gain := some realized_gain
        cost_basis_of_units_sold := some cost_basis_of_units_sold }))

/-- The switch_in branch of `create_mf_transaction`. -/
def mf_switch_in (db : DB) (ledger_id : Nat) (fund : MutualFund)
    (td : MfTransactionCreate) : Except (ApiError × DB) (DB × MfLocals) :=
  match td.target_fund_id with
  | none => .error (.targetFundRequired, db)
  | some source_fund_id =>
  match db.mutual_funds.find? (fun f => f.mutual_fund_id == source_fund_id) with
  | none => .error (.targetFundNotFound, db)
  | some source_fund =>
  if source_fund.ledger_id != ledger_id then .error (.targetFundNotFound, db)
  else if source_fund_id == td.mutual_fund_id then .error (.sameFundSwitch, db)
  else if td.nav_per_unit.getD 0 ≤ 0 then .error (.nonPositiveNav, db)
  else if td.cost_basis_of_units_sold.getD 0 == 0 then .error (.costBasisRequired, db)
  else
    let to_units := td.units
    let to_nav := td.nav_per_unit.getD 0
    let cost_basis_of_units_sold := td.cost_basis_of_units_sold.getD 0
    exBind (update_mutual_fund_balances db fund.mutual_fund_id to_units cost_basis_of_units_sold)
      (fun db fund1 =>
      let post_upd := fun (f : MutualFund) =>
        { f with total_invested_cash := f.total_invested_cash + cost_basis_of_units_sold,
                 latest_nav := to_nav,
                 current_value := fund1.total_units * to_nav }
      let db := { db with mutual_funds := updFund db.mutual_funds fund.mutual_fund_id post_upd }
      .ok (db, {
        total_amount := to_units * to_nav
        cost_basis_of_units_sold := some cost_basis_of_units_sold }))

/-- `mf_transaction_crud.create_mf_transaction`: fund lookup, type dispatch,
then the `MfTransaction` row assembled from the branch's local variables. -/
def create_mf_transaction (db : DB) (ledger_id : Nat) (td : MfTransactionCreate) :
    Except (ApiError × DB) (DB × MfTxn) :=
  match db.mutual_funds.find? (fun f => f.mutual_fund_id == td.mutual_fund_id) with
  | none => .error (.mutualFundNotFound, db)
  | some fund =>
  if fund.ledger_id != ledger_id then .error (.mutualFundNotFound, db)
  else
    exBind (α := MfLocals)
      (if td.transaction_type == "buy" || td.transaction_type == "sell" then
        mf_buy_sell db ledger_id fund td
      else if td.transaction_type == "switch_out" then
        mf_switch_out db ledger_id fund td
      else if td.transaction_type == "switch_in" then
        mf_switch_in db ledger_id fund td
      else .ok (db, {}))
      (fun db locs =>
      let row_nav :=
        if locs.nav_per_unit.getD 0 != 0 then locs.nav_per_unit.getD 0
        else td.nav_per_unit.getD 0
      let db_transaction : MfTxn := {
        mf_transaction_id := db.next_mf_transaction_id
        ledger_id := ledger_id
        mutual_fund_id := td.mutual_fund_id
        transaction_type := td.transaction_type
        units := td.units
        nav_per_unit := row_nav
        total_amount := locs.total_amount
        amount_excluding_charges := locs.amount_excluding_charges
        other_charges := locs.other_charges
        account_id := td.account_id
        target_fund_id := td.target_fund_id
        financial_transaction_id := locs.financial_transaction_id
        linked_charge_transaction_id := locs.linked_charge_transaction_id
        linked_transaction_id := td.linked_transaction_id
        realized_gain := locs.realized_gain
        cost_basis_of_units_sold := locs.cost_basis_of_units_sold
        transaction_date := td.transaction_date
        created_at := db.clock }
      let db := { db with mf_transactions := db.mf_transactions ++ [db_transaction],
                          next_mf_transaction_id := db.next_mf_transaction_id + 1,
                          clock := db.clock + 1 }
      .ok (db, db_transaction))

/-- The per-type fund reversal block of `delete_mf_transaction`. -/
def mf_delete_reverse_fund (db : DB) (fund_id : Nat) (db_transaction : MfTxn) :
    Except (ApiError × DB) (DB × Unit) :=
  if db_transaction.transaction_type == "buy" then
    let a := db_transaction.amount_excluding_charges.getD 0
    exBind (update_mutual_fund_balances db fund_id (-db_transaction.units) (-a))
      (fun db _ =>
      let f_upd := fun (f : MutualFund) =>
        { f with total_invested_cash := f.total_invested_cash - a,
                 external_cash_invested := f.external_cash_invested - a }
      .ok ({ db with mutual_funds := updFund db.mutual_funds fund_id f_upd }, ()))
  else if db_transaction.transaction_type == "sell" then
    let cb := db_transaction.cost_basis_of_units_sold.getD 0
    exBind (update_mutual_fund_balances db fund_id db_transaction.units cb)
      (fun db _ =>
      let f_upd := fun (f : MutualFund) =>
        let f :=
          if db_transaction.realized_gain.getD 0 != 0 then
            { f with total_realized_gain :=
                f.total_realized_gain - db_transaction.realized_gain.getD 0 }
          else f
        { f with total_invested_cash := f.total_invested_cash + cb,
                 external_cash_invested := f.external_cash_invested + cb }
      .ok ({ db with mutual_funds := updFund db.mutual_funds fund_id f_upd }, ()))
  else if db_transaction.transaction_type == "switch_out" then
    let cb := db_transaction.cost_basis_of_units_sold.getD 0
    exBind (update_mutual_fund_balances db fund_id db_transaction.units cb)
      (fun db _ =>
      let f_upd := fun (f : MutualFund) =>
        let f :=
          if db_transaction.realized_gain.getD 0 != 0 then
            { f with total_realized_gain :=
                f.total_realized_gain - db_transaction.realized_gain.getD 0 }
          else f
        { f with total_invested_cash := f.total_invested_cash + cb }
      .ok ({ db with mutual_funds := updFund db.mutual_funds fund_id f_upd }, ()))
  else if db_transaction.transaction_type == "switch_in" then
    let cb := db_transaction.cost_basis_of_units_sold.getD 0
    exBind (update_mutual_fund_balances db fund_id (-db_transaction.units) (-cb))
      (fun db _ =>
      let f_upd := fun (f : MutualFund) =>
        { f with total_invested_cash := f.total_invested_cash - cb }
      .ok ({ db with mutual_funds := updFund db.mutual_funds fund_id f_upd }, ()))
  else .ok (db, ())

/-- The linked-financial-transaction block of `delete_mf_transaction`:
credit the account back for a deleted buy, debit it back for a deleted sell,
then remove the row. -/
def mf_delete_remove_financial (db : DB) (db_transaction : MfTxn) : DB :=
  match db_transaction.financial_transaction_id with
  | none => db
  | some fid =>
    match db.transactions.find? (fun t => t.transaction_id == fid) with
    | none => db
    | some financial_transaction =>
      let db :=
        match db.accounts.find? (fun a => a.account_id == financial_transaction.account_id) with
        | none => db
        | some _ =>
          let amount :=
            if financial_transaction.credit > 0 then financial_transaction.credit
            else financial_transaction.debit
          if db_transaction.transaction_type == "buy" then
            let sh := fun (a : Account) =>
              { a with balance := a.balance + amount, net_balance := a.net_balance + amount }
            { db with accounts := updAccount db.accounts financial_transaction.account_id sh }
          else if db_transaction.transaction_type == "sell" then
            let sh := fun (a : Account) =>
              { a with balance := a.balance - amount, net_balance := a.net_balance - amount }
            { db with accounts := updAccount db.accounts financial_transaction.account_id sh }
          else db
      { db with transactions := db.transactions.filter (fun t => t.transaction_id != fid) }

/-- The charge-transaction block of `delete_mf_transaction`: charges are
always debits, so deleting one credits the account back. -/
def mf_delete_remove_charge (db : DB) (db_transaction : MfTxn) : DB :=
  match db_transaction.linked_charge_transaction_id with
  | none => db
  | some cid =>
    match db.transactions.find? (fun t => t.transaction_id == cid) with
    | none => db
    | some charge_transaction =>
      let db :=
        match db.accounts.find? (fun a => a.account_id == charge_transaction.account_id) with
        | none => db
        | some _ =>
          let amount := charge_transaction.debit
          let sh := fun (a : Account) =>
            { a with balance := a.balance + amount, net_balance := a.net_balance + amount }
          { db with accounts := updAccount db.accounts charge_transaction.account_id sh }
      { db with transactions := db.transactions.filter (fun t => t.transaction_id != cid) }

/-- The linked-switch-counterpart block of `delete_mf_transaction`: reverse
the other leg of a switch on its own fund, then remove its row. -/
def mf_delete_linked (db : DB) (db_transaction : MfTxn) :
    Except (ApiError × DB) (DB × Unit) :=
  match db_transaction.linked_transaction_id with
  | none => .ok (db, ())
  | some lid =>
    match db.mf_transactions.find? (fun t => t.mf_transaction_id == lid) with
    | none => .ok (db, ())
    | some linked_transaction =>
      match db.mutual_funds.find? (fun f => f.mutual_fund_id == linked_transaction.mutual_fund_id) with
      | none => .error (.mutualFundNotFound, db)
      | some linked_fund =>
        let rev2 : Except (ApiError × DB) (DB × Unit) :=
          if linked_transaction.transaction_type == "switch_out" then
            let cb := linked_transaction.cost_basis_of_units_sold.getD 0
            exBind (update_mutual_fund_balances db linked_fund.mutual_fund_id linked_transaction.units cb)
              (fun db _ =>
              let f_upd := fun (f : MutualFund) =>
                let f :=
                  if linked_transaction.realized_gain.getD 0 != 0 then
                    { f with total_realized_gain :=
                        f.total_realized_gain - linked_transaction.realized_gain.getD 0 }
                  else f
                { f with total_invested_cash := f.total_invested_cash + cb }
              .ok ({ db with mutual_funds := updFund db.mutual_funds linked_fund.mutual_fund_id f_upd }, ()))
          else if linked_transaction.transaction_type == "switch_in" then
            let cb := linked_transaction.cost_basis_of_units_sold.getD 0
            exBind (update_mutual_fund_balances db linked_fund.mutual_fund_id (-linked_transaction.units) (-cb))
              (fun db _ =>
              let f_upd := fun (f : MutualFund) =>
                { f with total_invested_cash := f.total_invested_cash - cb }
              .ok ({ db with mutual_funds := updFund db.mutual_funds linked_fund.mutual_fund_id f_upd }, ()))
          else .ok (db, ())
        exBind rev2 (fun db _ =>
          let kept := db.mf_transactions.filter (fun t => t.mf_transaction_id != lid)
          .ok ({ db with mf_transactions := kept }, ()))

/-- `mf_transaction_crud.delete_mf_transaction`: reverse the fund effect per
transaction type, delete the linked financial and charge transactions (each
with its exact account-balance reversal), cascade onto the linked switch
counterpart, then delete the row itself. -/
def delete_mf_transaction (db : DB) (mf_transaction_id : Nat) :
    Except (ApiError × DB) (DB × Unit) :=
  match db.mf_transactions.find? (fun t => t.mf_transaction_id == mf_transaction_id) with
  | none => .error (.mfTransactionNotFound, db)
  | some db_transaction =>
  match db.mutual_funds.find? (fun f => f.mutual_fund_id == db_transaction.mutual_fund_id) with
  | none => .error (.mutualFundNotFound, db)
  | some fund =>
    exBind (mf_delete_reverse_fund db fund.mutual_fund_id db_transaction) (fun db _ =>
      let db := mf_delete_remove_financial db db_transaction
      let db := mf_delete_remove_charge db db_transaction
      exBind (mf_delete_linked db db_transaction) (fun db _ =>
        let kept := db.mf_transactions.filter (fun t => t.mf_transaction_id != mf_transaction_id)
        .ok ({ db with mf_transactions := kept }, ())))

/-- `physical_asset_crud.update_asset_quantities_and_costs`: quantity delta
with oversell guard; average cost recomputed on buys, held on sells, zeroed
when the position closes.  (The wall-clock `last_price_update` stamp is not
modelled; the stored price still updates when one is supplied.) -/
def update_asset_quantities_and_costs (db : DB) (physical_asset_id : Nat)
    (quantity_change total_cost : Rat) (price_per_unit : Option Rat) :
    Except (ApiError × DB) (DB × PhysicalAsset) :=
  match db.physical_assets.find? (fun p => p.physical_asset_id == physical_asset_id) with
  | none => .error (.physicalAssetNotFound, db)
  | some db_asset =>
    let new_quantity := db_asset.total_quantity + quantity_change
    if new_quantity < 0 then .error (.insufficientQuantity, db)
    else
      let new_average_cost : Rat :=
        if new_quantity = 0 then 0
        else if quantity_change > 0 then
          let current_total_cost := db_asset.total_quantity * db_asset.average_cost_per_unit
          let new_total_cost := current_total_cost + total_cost
          new_total_cost / new_quantity
        else db_asset.average_cost_per_unit
      let lp := price_per_unit.getD db_asset.latest_price_per_unit
      let asset' := { db_asset with
        total_quantity := new_quantity
        average_cost_per_unit := new_average_cost
        latest_price_per_unit := lp
        current_value := new_quantity * lp }
      let replace := fun (_ : PhysicalAsset) => asset'
      .ok ({ db with physical_assets := updAsset db.physical_assets physical_asset_id replace }, asset')

/-- `schemas.physical_assets_schema.AssetTransactionCreate`. -/
structure AssetTransactionCreate where
  physical_asset_id : Nat
  transaction_type : String
  quantity : Rat
  price_per_unit : Rat
  account_id : Nat
  transaction_date : Int
  deriving Repr, DecidableEq

/-- `asset_transaction_crud._create_financial_transaction`: the expense
(buy) or income (sell) financial transaction posted through
`create_transaction`. -/
def create_financial_transaction_for_asset (db : DB) (account : Account)
    (transaction_type : String) (total_amount : Rat) (transaction_date : Int) :
    Except (ApiError × DB) (DB × Txn) :=
  let type_literal := if transaction_type == "buy" then "expense" else "income"
  let credit := if transaction_type == "buy" then 0 else total_amount
  let debit := if transaction_type == "buy" then total_amount else 0
  create_transaction db {
    account_id := account.account_id
    category_id := none
    type := type_literal
    credit := credit
    debit := debit
    date := transaction_date
    is_transfer := false
    transfer_id := none
    transfer_type := none
    is_split := false
    is_asset_transaction := true
    splits := none
    tags := none }

/-- `asset_transaction_crud.create_asset_transaction`: validation (asset,
account, oversell guard for sells, funding guard for buys) strictly before
any mutation, then financial transaction, asset-transaction row, and the
asset quantity/cost update in one unit of work. -/
def create_asset_transaction (db : DB) (ledger_id : Nat) (td : AssetTransactionCreate) :
    Except (ApiError × DB) (DB × AssetTransaction) :=
  match db.physical_assets.find? (fun p =>
      p.physical_asset_id == td.physical_asset_id && p.ledger_id == ledger_id) with
  | none => .error (.physicalAssetNotFound, db)
  | some physical_asset =>
  match db.accounts.find? (fun a =>
      a.account_id == td.account_id && a.ledger_id == ledger_id) with
  | none => .error (.invalidAccountForLedger, db)
  | some account =>
    let total_amount := td.quantity * td.price_per_unit
    if td.transaction_type == "sell" ∧ physical_asset.total_quantity < td.quantity then
      .error (.insufficientQuantity, db)
    else if td.transaction_type == "buy" ∧ account.net_balance < total_amount then
      .error (.insufficientBalance, db)
    else
      exBind (create_financial_transaction_for_asset db account td.transaction_type
          total_amount td.transaction_date) (fun db financial_transaction =>
        let db_transaction : AssetTransaction := {
          asset_transaction_id := db.next_asset_transaction_id
          ledger_id := ledger_id
          physical_asset_id := td.physical_asset_id
          transaction_type := td.transaction_type
          quantity := td.quantity
          price_per_unit := td.price_per_unit
          total_amount := total_amount
          account_id := td.account_id
          financial_transaction_id := financial_transaction.transaction_id
          transaction_date := td.transaction_date
          created_at := db.clock }
        let db := { db with
          asset_transactions := db.asset_transactions ++ [db_transaction],
          next_asset_transaction_id := db.next_asset_transaction_id + 1,
          clock := db.clock + 1 }
        let quantity_change :=
          if td.transaction_type == "buy" then td.quantity else -td.quantity
        let cost_for_update :=
          if td.transaction_type == "buy" then total_amount else 0
        exBind (update_asset_quantities_and_costs db td.physical_asset_id quantity_change
          cost_for_update (some td.price_per_unit)) (fun db _ => .ok (db, db_transaction)))

/-- The `ORDER BY transaction_date ASC, created_at ASC` comparison used when
replaying an asset's remaining history. -/
def assetTxnLE (a b : AssetTransaction) : Bool :=
  decide (a.transaction_date < b.transaction_date ∨
    (a.transaction_date = b.transaction_date ∧ a.created_at ≤ b.created_at))

/-- Insertion into a list sorted by `assetTxnLE`. -/
def insertSorted (x : AssetTransaction) : List AssetTransaction → List AssetTransaction
  | [] => [x]
  | y :: ys => if assetTxnLE x y then x :: y :: ys else y :: insertSorted x ys

/-- Stable insertion sort by `(transaction_date, created_at)` ascending. -/
def sortByDateCreated : List AssetTransaction → List AssetTransaction
  | [] => []
  | x :: xs => insertSorted x (sortByDateCreated xs)

/-- One iteration of the replay loop in `delete_asset_transaction`
(state: `(new_total_quantity, new_average_cost, current_total_cost)`). -/
def replayStep (s : Rat × Rat × Rat) (tx : AssetTransaction) : Rat × Rat × Rat :=
  let (q, avg, cost) := s
  if tx.transaction_type == "buy" then
    let q' := q + tx.quantity
    let cost' := cost + tx.total_amount
    let avg' := if q' > 0 then cost' / q' else avg
    (q', avg', cost')
  else if tx.transaction_type == "sell" then
    if q ≥ tx.quantity then
      let cost_of_sold_assets := tx.quantity * avg
      (q - tx.quantity, avg, cost - cost_of_sold_assets)
    else (0, avg, 0)
  else s

/-- `asset_transaction_crud.delete_asset_transaction`: remove the row and
its linked financial transaction, replay the asset's remaining history from
the zero state in `(transaction_date, created_at)` order, reset the latest
price from the last remaining row, then reverse the account balance. -/
def delete_asset_transaction (db : DB) (asset_transaction_id : Nat) :
    Except (ApiError × DB) (DB × Bool) :=
  match db.asset_transactions.find? (fun t => t.asset_transaction_id == asset_transaction_id) with
  | none => .error (.assetTransactionNotFound, db)
  | some db_transaction =>
    let account? := db.accounts.find? (fun a => a.account_id == db_transaction.account_id)
    let kept_txns := db.transactions.filter
      (fun t => t.transaction_id != db_transaction.financial_transaction_id)
    let kept_asset_txns := db.asset_transactions.filter
      (fun t => t.asset_transaction_id != asset_transaction_id)
    let db1 := { db with transactions := kept_txns, asset_transactions := kept_asset_txns }
    match db1.physical_assets.find? (fun p =>
        p.physical_asset_id == db_transaction.physical_asset_id) with
    | none => .error (.physicalAssetNotFound, db)
    | some physical_asset =>
      let remaining_transactions := sortByDateCreated (db1.asset_transactions.filter
        (fun t => t.physical_asset_id == db_transaction.physical_asset_id))
      let replayed := remaining_transactions.foldl replayStep (0, 0, 0)
      let new_total_quantity := replayed.1
      let new_average_cost := replayed.2.1
      let clamped :=
        if new_total_quantity ≤ 0 then ((0 : Rat), (0 : Rat))
        else (new_total_quantity, new_average_cost)
      let price_reset :=
        match remaining_transactions.getLast? with
        | some last_tx => (last_tx.price_per_unit, some last_tx.transaction_date)
        | none => ((0 : Rat), none)
      let asset' := { physical_asset with
        total_quantity := clamped.1
        average_cost_per_unit := clamped.2
        latest_price_per_unit := price_reset.1
        last_price_update := price_reset.2
        current_value := clamped.1 * price_reset.1 }
      let replace := fun (_ : PhysicalAsset) => asset'
      let db2 := { db1 with
        physical_assets := updAsset db1.physical_assets asset'.physical_asset_id replace }
      let db3 :=
        match account? with
        | none => db2
        | some _ =>
          let adjust := fun (account : Account) =>
            let account :=
              if db_transaction.transaction_type == "buy" then
                { account with balance := account.balance + db_transaction.total_amount }
              else
                { account with balance := account.balance - db_transaction.total_amount }
            setNet account
          { db2 with accounts := updAccount db2.accounts db_transaction.account_id adjust }
      .ok (db3, true)

/-- One entry of the transaction history fed to `calculate_xirr`. -/
structure XirrTxn where
  transaction_type : String
  amount_excluding_charges : Rat
  transaction_date : Int
  deriving Repr, DecidableEq

/-- The cash-flow signs of `calculate_xirr`: buys and switch-ins are
negative flows, sells and switch-outs positive; other types contribute no
flow (their dates still enter the date list, as in the source). -/
def xirrFlows : List XirrTxn → List Rat
  | [] => []
  | tx :: rest =>
    if tx.transaction_type == "buy" || tx.transaction_type == "switch_in" then
      -tx.amount_excluding_charges :: xirrFlows rest
    else if tx.transaction_type == "sell" || tx.transaction_type == "switch_out" then
      tx.amount_excluding_charges :: xirrFlows rest
    else xirrFlows rest

/-- Python's `round(x, 2)` applied to the percentage result (the tie-breaking
mode is irrelevant to every claim; half-up is used here). -/
def roundTo2 (x : Rat) : Rat := (round (x * 100) : Int) / 100

/-- `utils.xirr_calculator.calculate_xirr`.

The `scipy.optimize.newton` root finder is an external collaborator; it is
modelled as an abstract `solver` given the assembled cash flows, dates and
the 10% starting guess, returning either a root or a failure.  Everything
the source wraps in `try` is under the solver; `except Exception` maps any
failure to `0.0`, and an empty transaction list short-circuits to `0.0`. -/
def calculate_xirr (solver : List Rat → List Int → Rat → Except Unit Rat)
    (transactions : List XirrTxn) (current_value : Rat) (current_date : Int) : Rat :=
  if transactions = [] then 0
  else
    let cash_flows := xirrFlows transactions ++ [current_value]
    let dates := (transactions.map XirrTxn.transaction_date) ++ [current_date]
    match solver cash_flows dates (1 / 10) with
    | .ok xirr => roundTo2 (xirr * 100)
    | .error _ => 0

/-! ## The balance invariant and projection helpers -/

/-- The account balance invariant of §8 of the spec. -/
def accInv (a : Account) : Prop := a.net_balance = a.opening_balance + a.balance

instance (a : Account) : Decidable (accInv a) := by
  unfold accInv; infer_instance

/-- Every account of the list satisfies the balance invariant. -/
def accsInv (l : List Account) : Prop := ∀ a ∈ l, accInv a

/-- Every account of the store satisfies the balance invariant. -/
def dbInv (db : DB) : Prop := accsInv db.accounts

instance (db : DB) : Decidable (dbInv db) := by
  unfold dbInv accsInv; infer_instance

/-- The store an operation leaves behind: the committed state, whether the
operation succeeded or raised. -/
def resDB {α : Type} : Except (ApiError × DB) (DB × α) → DB
  | .ok (db, _) => db
  | .error (_, db) => db

/-- The error an operation raised, if any. -/
def errOf {α : Type} : Except (ApiError × DB) (DB × α) → Option ApiError
  | .ok _ => none
  | .error (e, _) => some e

/-- The value a successful operation returned, if any. -/
def okVal {α : Type} : Except (ApiError × DB) (DB × α) → Option α
  | .ok (_, v) => some v
  | .error _ => none

theorem accInv_setNet (a : Account) : accInv (setNet a) := rfl

theorem accInv_shift (a : Account) (d : Rat) (h : accInv a) :
    accInv { a with balance := a.balance + d, net_balance := a.net_balance + d } := by
  unfold accInv at *
  simp only [h]
  ring

theorem accInv_shift_sub (a : Account) (d : Rat) (h : accInv a) :
    accInv { a with balance := a.balance - d, net_balance := a.net_balance - d } := by
  unfold accInv at *
  simp only [h]
  ring

theorem accsInv_updAccount {l : List Account} {i : Nat} {f : Account → Account}
    (h : accsInv l) (hf : ∀ a, accInv a → accInv (f a)) : accsInv (updAccount l i f) := by
  intro a ha
  simp only [updAccount, List.mem_map] at ha
  obtain ⟨b, hb, rfl⟩ := ha
  by_cases hc : (b.account_id == i) = true
  · simpa [hc] using hf b (h b hb)
  · simpa [hc] using h b hb

theorem accsInv_append {l₁ l₂ : List Account} (h₁ : accsInv l₁) (h₂ : accsInv l₂) :
    accsInv (l₁ ++ l₂) := by
  intro a ha
  rcases List.mem_append.mp ha with h | h
  · exact h₁ a h
  · exact h₂ a h

theorem accInv_createTxnBalanceUpdate (a : Account) (ty : String) (c d : Rat) :
    accInv (createTxnBalanceUpdate a ty c d) := by
  unfold createTxnBalanceUpdate
  exact accInv_setNet _

theorem update_account_balance_core_inv {a a' : Account} {c d : Rat} {r : Bool}
    (h : update_account_balance_core a c d r = .ok a') : accInv a' := by
  unfold update_account_balance_core at h
  split at h
  · exact (Except.ok.injEq _ _).mp h ▸ accInv_setNet _
  · split at h
    · exact (Except.ok.injEq _ _).mp h ▸ accInv_setNet _
    · cases h

/-- The split-insertion loop touches only the split table. -/
theorem addSplits_accounts (db : DB) (i : Nat) (l : List SplitCreate) :
    (addSplits db i l).accounts = db.accounts := by
  induction l generalizing db with
  | nil => rfl
  | cons s rest ih => simpa [addSplits] using ih _

/-- Find-or-create of a tag touches only the tag table. -/
theorem findOrCreateTag_accounts (db : DB) (u : Nat) (n : String) :
    (findOrCreateTag db u n).1.accounts = db.accounts := by
  unfold findOrCreateTag
  split <;> rfl

/-- The tag-linking loop touches only tag tables. -/
theorem addTransactionTags_accounts (db : DB) (u i : Nat) (l : List String) :
    (addTransactionTags db u i l).accounts = db.accounts := by
  induction l generalizing db with
  | nil => rfl
  | cons n rest ih =>
    unfold addTransactionTags
    rw [ih]
    exact findOrCreateTag_accounts _ _ _

/-- Fund-balance updates leave the account table untouched, on success and
on failure alike. -/
theorem update_mutual_fund_balances_accounts (db : DB) (i : Nat) (u t : Rat) :
    (resDB (update_mutual_fund_balances db i u t)).accounts = db.accounts := by
  unfold update_mutual_fund_balances
  split
  · rfl
  · next db_fund heq =>
    by_cases h : db_fund.total_units + u < 0
    · simp [h, resDB]
    · simp [h, resDB]

/-- Asset quantity/cost updates leave the account table untouched. -/
theorem update_asset_quantities_and_costs_accounts (db : DB) (i : Nat)
    (q c : Rat) (p : Option Rat) :
    (resDB (update_asset_quantities_and_costs db i q c p)).accounts = db.accounts := by
  unfold update_asset_quantities_and_costs
  split
  · rfl
  · next db_asset heq =>
    by_cases h : db_asset.total_quantity + q < 0
    · simp [h, resDB]
    · simp [h, resDB]

/-- Result store of an operation returning only a store. -/
def resDB1 : Except (ApiError × DB) DB → DB
  | .ok db => db
  | .error (_, db) => db

theorem dbInv_of_accounts_eq {db₂ db₁ : DB} (h : db₂.accounts = db₁.accounts)
    (hi : dbInv db₁) : dbInv db₂ := by
  unfold dbInv
  rw [h]
  exact hi

theorem validate_and_add_splits_accounts (db : DB) (tc : TransactionCreate)
    (c d : Rat) (i : Nat) :
    (resDB1 (validate_and_add_splits db tc c d i)).accounts = db.accounts := by
  unfold validate_and_add_splits
  split
  · dsimp only
    split
    · rfl
    · split
      · rfl
      · simpa [resDB1] using addSplits_accounts db i (tc.splits.getD [])
  · rfl

theorem inv_create_transaction_stage2 (db : DB) (tc : TransactionCreate)
    (u : Nat) (t : Txn) (h : dbInv db) :
    dbInv (resDB (create_transaction_stage2 db tc u t)) := by
  unfold create_transaction_stage2
  split
  · next e heq2 =>
    obtain ⟨err, db'⟩ := e
    have h2 := validate_and_add_splits_accounts db tc tc.credit tc.debit t.transaction_id
    rw [heq2] at h2
    simp only [resDB1] at h2
    exact dbInv_of_accounts_eq h2 h
  · next db3 heq2 =>
    have h2 := validate_and_add_splits_accounts db tc tc.credit tc.debit t.transaction_id
    rw [heq2] at h2
    simp only [resDB1] at h2
    have hdb3 : dbInv db3 := dbInv_of_accounts_eq h2 h
    split
    · show accsInv (addTransactionTags db3 _ _ _).accounts
      rw [addTransactionTags_accounts]
      exact hdb3
    · exact hdb3

theorem inv_create_transaction (db : DB) (tc : TransactionCreate) (h : dbInv db) :
    dbInv (resDB (create_transaction db tc)) := by
  unfold create_transaction
  split
  · exact h
  · next account heq =>
    split
    · exact h
    · refine inv_create_transaction_stage2 _ tc account.user_id _ ?_
      show accsInv (updAccount db.accounts tc.account_id
        (fun a => createTxnBalanceUpdate a tc.type tc.credit tc.debit))
      exact accsInv_updAccount h (fun a _ => accInv_createTxnBalanceUpdate a _ _ _)

theorem inv_update_account_balance (db : DB) (i : Nat) (c d : Rat) (rev : Bool)
    (h : dbInv db) : dbInv (resDB (update_account_balance db i c d rev)) := by
  unfold update_account_balance
  split
  · exact h
  · next account heq =>
    split
    · exact h
    · next account' heq2 =>
      exact accsInv_updAccount h (fun a _ => update_account_balance_core_inv heq2)

theorem inv_create_account (db : DB) (lid : Nat) (ac : AccountCreate) (h : dbInv db) :
    dbInv (resDB (create_account db lid ac)) := by
  unfold create_account
  split
  · exact h
  · dsimp only
    split
    · exact h
    · refine accsInv_append h ?_
      intro a ha
      simp only [List.mem_singleton] at ha
      subst ha
      show (ac.opening_balance : Rat) = ac.opening_balance + 0
      rw [add_zero]

theorem accInv_applyAccountPatch (au : AccountUpdate) (a : Account) (ha : accInv a) :
    accInv (applyAccountPatch au a) := by
  unfold applyAccountPatch
  rcases au.name with _ | n <;> rcases au.opening_balance with _ | ob <;>
      rcases au.parent_account_id with _ | pid <;> dsimp only <;>
    first
      | exact ha
      | exact accInv_setNet _

theorem inv_update_account (db : DB) (i : Nat) (au : AccountUpdate) (h : dbInv db) :
    dbInv (resDB (update_account db i au)) := by
  unfold update_account
  split
  · exact h
  · dsimp only
    split
    · exact h
    · exact accsInv_updAccount h (accInv_applyAccountPatch au)

theorem inv_exBind {α β : Type} {E : Except (ApiError × DB) (DB × α)}
    {f : DB → α → Except (ApiError × DB) (DB × β)}
    (hE : dbInv (resDB E))
    (hf : ∀ db a, E = .ok (db, a) → dbInv db → dbInv (resDB (f db a))) :
    dbInv (resDB (exBind E f)) := by
  cases E with
  | error e => exact hE
  | ok p =>
    obtain ⟨db, a⟩ := p
    exact hf db a rfl hE

theorem inv_update_mutual_fund_balances (db : DB) (i : Nat) (u t : Rat) (h : dbInv db) :
    dbInv (resDB (update_mutual_fund_balances db i u t)) :=
  dbInv_of_accounts_eq (update_mutual_fund_balances_accounts db i u t) h

theorem inv_update_asset_quantities (db : DB) (i : Nat) (q c : Rat) (p : Option Rat)
    (h : dbInv db) : dbInv (resDB (update_asset_quantities_and_costs db i q c p)) :=
  dbInv_of_accounts_eq (update_asset_quantities_and_costs_accounts db i q c p) h

theorem inv_mf_buy_sell (db : DB) (lid : Nat) (fund : MutualFund)
    (td : MfTransactionCreate) (h : dbInv db) :
    dbInv (resDB (mf_buy_sell db lid fund td)) := by
  unfold mf_buy_sell
  split
  · exact h
  · split
    · exact h
    · next account heq =>
      split
      · exact h
      · split
        · exact h
        · split
          · exact h
          · split
            · exact h
            · split
              · exact h
              · refine inv_exBind ?_ ?_
                · split
                  · dsimp only
                    split
                    · exact h
                    · refine accsInv_updAccount ?_ (fun a ha => ?_)
                      · exact accsInv_updAccount h (fun a ha => accInv_shift a _ ha)
                      · exact accInv_shift_sub a _ ha
                  · exact accsInv_updAccount h (fun a ha => accInv_shift a _ ha)
                · intro db1 linked heq1 hdb1
                  refine inv_exBind ?_ ?_
                  · split
                    · split
                      · exact hdb1
                      · exact hdb1
                    · exact hdb1
                  · intro db2 rgcb heq2 hdb2
                    refine inv_exBind ?_ ?_
                    · exact inv_update_mutual_fund_balances _ _ _ _ hdb2
                    · intro db3 fund1 heq3 hdb3
                      dsimp only
                      split
                      · exact hdb3
                      · exact hdb3

theorem inv_mf_switch_out (db : DB) (lid : Nat) (fund : MutualFund)
    (td : MfTransactionCreate) (h : dbInv db) :
    dbInv (resDB (mf_switch_out db lid fund td)) := by
  unfold mf_switch_out
  split
  · exact h
  · split
    · exact h
    · split
      · exact h
      · split
        · exact h
        · split
          · exact h
          · split
            · exact h
            · dsimp only
              refine inv_exBind ?_ ?_
              · exact inv_update_mutual_fund_balances _ _ _ _ h
              · intro db1 fund1 heq1 hdb1
                exact hdb1

theorem inv_mf_switch_in (db : DB) (lid : Nat) (fund : MutualFund)
    (td : MfTransactionCreate) (h : dbInv db) :
    dbInv (resDB (mf_switch_in db lid fund td)) := by
  unfold mf_switch_in
  split
  · exact h
  · split
    · exact h
    · split
      · exact h
      · split
        · exact h
        · split
          · exact h
          · split
            · exact h
            · dsimp only
              refine inv_exBind ?_ ?_
              · exact inv_update_mutual_fund_balances _ _ _ _ h
              · intro db1 fund1 heq1 hdb1
                exact hdb1

theorem inv_create_mf_transaction (db : DB) (lid : Nat) (td : MfTransactionCreate)
    (h : dbInv db) : dbInv (resDB (create_mf_transaction db lid td)) := by
  unfold create_mf_transaction
  split
  · exact h
  · next fund heq =>
    split
    · exact h
    · refine inv_exBind ?_ ?_
      · split
        · exact inv_mf_buy_sell _ _ _ _ h
        · split
          · exact inv_mf_switch_out _ _ _ _ h
          · split
            · exact inv_mf_switch_in _ _ _ _ h
            · exact h
      · intro db1 locs heq1 hdb1
        exact hdb1

theorem inv_mf_delete_reverse_fund (db : DB) (i : Nat) (t : MfTxn) (h : dbInv db) :
    dbInv (resDB (mf_delete_reverse_fund db i t)) := by
  unfold mf_delete_reverse_fund
  split
  · refine inv_exBind (inv_update_mutual_fund_balances _ _ _ _ h) ?_
    intro db1 _ heq1 hdb1
    exact hdb1
  · split
    · refine inv_exBind (inv_update_mutual_fund_balances _ _ _ _ h) ?_
      intro db1 _ heq1 hdb1
      exact hdb1
    · split
      · refine inv_exBind (inv_update_mutual_fund_balances _ _ _ _ h) ?_
        intro db1 _ heq1 hdb1
        exact hdb1
      · split
        · refine inv_exBind (inv_update_mutual_fund_balances _ _ _ _ h) ?_
          intro db1 _ heq1 hdb1
          exact hdb1
        · exact h

theorem inv_mf_delete_remove_financial (db : DB) (t : MfTxn) (h : dbInv db) :
    dbInv (mf_delete_remove_financial db t) := by
  unfold mf_delete_remove_financial
  split
  · exact h
  · split
    · exact h
    · next financial_transaction heq =>
      dsimp only
      split
      · exact h
      · show accsInv (DB.accounts _)
        split
        · exact accsInv_updAccount h (fun a ha => accInv_shift a _ ha)
        · split
          · exact accsInv_updAccount h (fun a ha => accInv_shift_sub a _ ha)
          · exact h

theorem inv_mf_delete_remove_charge (db : DB) (t : MfTxn) (h : dbInv db) :
    dbInv (mf_delete_remove_charge db t) := by
  unfold mf_delete_remove_charge
  split
  · exact h
  · split
    · exact h
    · next charge_transaction heq =>
      dsimp only
      split
      · exact h
      · exact accsInv_updAccount h (fun a ha => accInv_shift a _ ha)

theorem inv_mf_delete_linked (db : DB) (t : MfTxn) (h : dbInv db) :
    dbInv (resDB (mf_delete_linked db t)) := by
  unfold mf_delete_linked
  split
  · exact h
  · split
    · exact h
    · split
      · exact h
      · dsimp only
        refine inv_exBind ?_ ?_
        · split
          · refine inv_exBind (inv_update_mutual_fund_balances _ _ _ _ h) ?_
            intro db1 _ heq1 hdb1
            exact hdb1
          · split
            · refine inv_exBind (inv_update_mutual_fund_balances _ _ _ _ h) ?_
              intro db1 _ heq1 hdb1
              exact hdb1
            · exact h
        · intro db1 _ heq1 hdb1
          exact hdb1

theorem inv_delete_mf_transaction (db : DB) (i : Nat) (h : dbInv db) :
    dbInv (resDB (delete_mf_transaction db i)) := by
  unfold delete_mf_transaction
  split
  · exact h
  · split
    · exact h
    · refine inv_exBind (inv_mf_delete_reverse_fund _ _ _ h) ?_
      intro db1 _ heq1 hdb1
      refine inv_exBind (inv_mf_delete_linked _ _ ?_) ?_
      · exact inv_mf_delete_remove_charge _ _ (inv_mf_delete_remove_financial _ _ hdb1)
      · intro db2 _ heq2 hdb2
        exact hdb2

theorem inv_create_financial_transaction_for_asset (db : DB) (account : Account)
    (ty : String) (amt : Rat) (d : Int) (h : dbInv db) :
    dbInv (resDB (create_financial_transaction_for_asset db account ty amt d)) := by
  unfold create_financial_transaction_for_asset
  exact inv_create_transaction _ _ h

theorem inv_create_asset_transaction (db : DB) (lid : Nat) (td : AssetTransactionCreate)
    (h : dbInv db) : dbInv (resDB (create_asset_transaction db lid td)) := by
  unfold create_asset_transaction
  split
  · exact h
  · split
    · exact h
    · next account heq =>
      dsimp only
      split
      · exact h
      · split
        · exact h
        · refine inv_exBind (inv_create_financial_transaction_for_asset _ _ _ _ _ h) ?_
          intro db1 financial_transaction heq1 hdb1
          refine inv_exBind (inv_update_asset_quantities _ _ _ _ _ hdb1) ?_
          intro db2 _ heq2 hdb2
          exact hdb2

theorem inv_delete_asset_transaction (db : DB) (i : Nat) (h : dbInv db) :
    dbInv (resDB (delete_asset_transaction db i)) := by
  unfold delete_asset_transaction
  split
  · exact h
  · next db_transaction heq =>
    dsimp only
    split
    · exact h
    · next physical_asset heq2 =>
      split
      · exact h
      · refine accsInv_updAccount h (fun a ha => ?_)
        exact accInv_setNet _

/-! ## Example stores used by the claim witnesses -/

/-- A simple non-group asset account satisfying the balance invariant. -/
def exAccount : Account := {
  account_id := 1, ledger_id := 1, user_id := 7, name := "Cash",
  type := "asset", is_group := false,
  opening_balance := 100, balance := 400, net_balance := 500 }

/-- A fund holding two units at average cost ten. -/
def exFund : MutualFund := {
  mutual_fund_id := 1, ledger_id := 1, user_id := 7,
  total_units := 2, average_cost_per_unit := 10, latest_nav := 10,
  current_value := 20, total_realized_gain := 0,
  total_invested_cash := 20, external_cash_invested := 20 }

/-- An asset position holding two units at average cost ten. -/
def exAsset : PhysicalAsset := {
  physical_asset_id := 1, ledger_id := 1,
  total_quantity := 2, average_cost_per_unit := 10,
  latest_price_per_unit := 10, current_value := 20 }

/-- A store with one account, one fund and one asset position. -/
def exDB : DB := { accounts := [exAccount], mutual_funds := [exFund],
                   physical_assets := [exAsset] }

/-! ## C10 — funds can be deleted only at zero units -/

/-- C10: `delete_mutual_fund` fails (leaving the store untouched) whenever the
fund still holds units, and succeeds exactly when the fund exists with zero
units, in which case only that fund row is removed.  Hence no success path
ever deletes a fund that still held units. -/
theorem C10_delete_fund_only_at_zero_units :
    (∀ (db : DB) (i : Nat) (f : MutualFund),
      db.mutual_funds.find? (fun x => x.mutual_fund_id == i) = some f →
      f.total_units ≠ 0 →
      delete_mutual_fund db i = .error (.fundHasUnits, db)) ∧
    (∀ (db : DB) (i : Nat) (r : DB × Unit),
      delete_mutual_fund db i = .ok r →
      ∃ f, db.mutual_funds.find? (fun x => x.mutual_fund_id == i) = some f ∧
        f.total_units = 0 ∧
        r.1 = { db with mutual_funds :=
          db.mutual_funds.filter (fun x => x.mutual_fund_id != i) }) := by
  constructor
  · intro db i f hf hu
    unfold delete_mutual_fund
    rw [hf]
    dsimp only
    rw [if_pos hu]
  · intro db i r hr
    unfold delete_mutual_fund at hr
    split at hr
    · cases hr
    · next f hf =>
      split at hr
      · cases hr
      · next hu =>
        refine ⟨f, hf, not_not.mp hu, ?_⟩
        cases hr
        rfl

/-- Witness for C10 at a concrete fund holding units. -/
theorem C10_witness :
    exDB.mutual_funds.find? (fun x => x.mutual_fund_id == 1) = some exFund ∧
    exFund.total_units ≠ 0 ∧
    delete_mutual_fund exDB 1 = .error (.fundHasUnits, exDB) :=
  ⟨by decide, by decide,
   C10_delete_fund_only_at_zero_units.1 exDB 1 exFund (by decide) (by decide)⟩

/-! ## C9 — asset buys require sufficient account net balance -/

/-- C9: a buy asset transaction whose cost exceeds the account's
`net_balance` fails with the insufficient-balance error before any row is
written or balance changed (the original store is returned untouched). -/
theorem C9_asset_buy_funding_guard :
    ∀ (db : DB) (lid : Nat) (td : AssetTransactionCreate)
      (p : PhysicalAsset) (a : Account),
      db.physical_assets.find? (fun x =>
        x.physical_asset_id == td.physical_asset_id && x.ledger_id == lid) = some p →
      db.accounts.find? (fun x =>
        x.account_id == td.account_id && x.ledger_id == lid) = some a →
      td.transaction_type = "buy" →
      a.net_balance < td.quantity * td.price_per_unit →
      create_asset_transaction db lid td = .error (.insufficientBalance, db) := by
  intro db lid td p a hp ha hbuy hlt
  unfold create_asset_transaction
  rw [hp, ha]
  dsimp only
  rw [if_neg ?hsell, if_pos ?hbuyc]
  case hsell =>
    rintro ⟨h1, _⟩
    rw [hbuy] at h1
    exact absurd h1 (by decide)
  case hbuyc =>
    exact ⟨by rw [hbuy]; decide, hlt⟩

/-- Witness for C9: a two-unit buy at price ten against a balance of 15. -/
theorem C9_witness :
    create_asset_transaction
      { accounts := [{ exAccount with net_balance := 15 }],
        physical_assets := [exAsset] } 1
      { physical_asset_id := 1, transaction_type := "buy", quantity := 2,
        price_per_unit := 10, account_id := 1, transaction_date := 0 } =
      .error (.insufficientBalance,
        { accounts := [{ exAccount with net_balance := 15 }],
          physical_assets := [exAsset] }) :=
  C9_asset_buy_funding_guard _ 1 _ exAsset { exAccount with net_balance := 15 }
    (by decide) (by decide) rfl (by norm_num)

/-! ## C8 — the XIRR calculator degrades to zero instead of raising -/

/-- C8: `calculate_xirr` is total: an empty transaction list yields `0.0`,
and whenever the (abstract, externally supplied) Newton-Raphson solver —
invoked on the assembled cash flows and dates with the 10% starting guess —
fails or raises, the caught exception is mapped to `0.0`. -/
theorem C8_xirr_totality :
    ∀ (solver : List Rat → List Int → Rat → Except Unit Rat)
      (transactions : List XirrTxn) (current_value : Rat) (current_date : Int),
      (transactions = [] →
        calculate_xirr solver transactions current_value current_date = 0) ∧
      (solver (xirrFlows transactions ++ [current_value])
          (transactions.map XirrTxn.transaction_date ++ [current_date]) (1 / 10) =
            .error () →
        calculate_xirr solver transactions current_value current_date = 0) := by
  intro solver txs v d
  constructor
  · intro h
    simp [calculate_xirr, h]
  · intro h
    unfold calculate_xirr
    by_cases he : txs = []
    · rw [if_pos he]
    · rw [if_neg he]
      dsimp only
      rw [h]

/-- Witness for C8: a solver that always fails, on the empty history and on
a one-buy history. -/
theorem C8_witness :
    calculate_xirr (fun _ _ _ => .error ()) [] 100 0 = 0 ∧
    calculate_xirr (fun _ _ _ => .error ())
      [{ transaction_type := "buy", amount_excluding_charges := 1000,
         transaction_date := 0 }] 1100 365 = 0 :=
  ⟨(C8_xirr_totality (fun _ _ _ => .error ()) [] 100 0).1 rfl,
   (C8_xirr_totality (fun _ _ _ => .error ())
      [{ transaction_type := "buy", amount_excluding_charges := 1000,
         transaction_date := 0 }] 1100 365).2 rfl⟩

/-! ## C2 — weighted-average-cost law -/

/-- A fund holding exactly one unit at average cost one. -/
def c2fund : MutualFund := {
  mutual_fund_id := 1, ledger_id := 1, user_id := 1,
  total_units := 1, average_cost_per_unit := 1, latest_nav := 1,
  current_value := 1, total_realized_gain := 0, total_invested_cash := 1,
  external_cash_invested := 1 }

/-- An asset position holding exactly one unit at average cost one. -/
def c2asset : PhysicalAsset := {
  physical_asset_id := 1, ledger_id := 1,
  total_quantity := 1, average_cost_per_unit := 1, latest_price_per_unit := 1,
  current_value := 1 }

/-- A one-fund, one-asset store at one unit held, average cost one. -/
def c2db : DB := { mutual_funds := [c2fund], physical_assets := [c2asset] }

/-- Counterexample to C2 as stated: with one unit held at average cost one,
selling `u = 1 ≤ u0 = 1` units (the tracker invoked exactly as the sell path
invokes it, with cash delta `-(u × avg)`) resets the average cost to `0`,
not the unchanged `1` the claim demands — in both trackers. -/
theorem C2_counterexample :
    (okVal (update_mutual_fund_balances c2db 1 (-1) (-(1 * 1)))).map
        MutualFund.average_cost_per_unit = some 0 ∧
    ¬ ((okVal (update_mutual_fund_balances c2db 1 (-1) (-(1 * 1)))).map
        MutualFund.average_cost_per_unit = some 1) ∧
    (okVal (update_asset_quantities_and_costs c2db 1 (-1) 0 none)).map
        PhysicalAsset.average_cost_per_unit = some 0 ∧
    ¬ ((okVal (update_asset_quantities_and_costs c2db 1 (-1) 0 none)).map
        PhysicalAsset.average_cost_per_unit = some 1) := by
  have h1 : (okVal (update_mutual_fund_balances c2db 1 (-1) (-(1 * 1)))).map
      MutualFund.average_cost_per_unit = some 0 := by
    norm_num [update_mutual_fund_balances, c2db, c2fund, c2asset, okVal, updFund,
      List.find?]
  have h2 : (okVal (update_asset_quantities_and_costs c2db 1 (-1) 0 none)).map
      PhysicalAsset.average_cost_per_unit = some 0 := by
    norm_num [update_asset_quantities_and_costs, c2db, c2fund, c2asset, okVal, updAsset,
      List.find?]
  refine ⟨h1, ?_, h2, ?_⟩
  · rw [h1]
    simp
  · rw [h2]
    simp

/-- C2 as amended: a buy of cash `c` acquiring `u > 0` units moves the
average cost to `(u0·a0 + c)/(u0 + u)`; a sell (or switch_out) of `u`
*strictly fewer* than the held units — invoked, as the sell paths do, with
cash delta `-(u × a0)` for the fund tracker and zero cost for the asset
tracker — leaves the average cost exactly unchanged; selling *exactly* the
held units closes the position and resets the average cost to zero.  All six
statements cover both the mutual-fund and the physical-asset tracker. -/
theorem C2_weighted_average_cost :
    (∀ (db : DB) (i : Nat) (f : MutualFund) (u c : Rat),
      db.mutual_funds.find? (fun x => x.mutual_fund_id == i) = some f →
      0 ≤ f.total_units → 0 < u →
      (okVal (update_mutual_fund_balances db i u c)).map
          MutualFund.average_cost_per_unit =
        some ((f.total_units * f.average_cost_per_unit + c) / (f.total_units + u))) ∧
    (∀ (db : DB) (i : Nat) (f : MutualFund) (u : Rat),
      db.mutual_funds.find? (fun x => x.mutual_fund_id == i) = some f →
      0 < u → u < f.total_units →
      (okVal (update_mutual_fund_balances db i (-u) (-(u * f.average_cost_per_unit)))).map
          MutualFund.average_cost_per_unit = some f.average_cost_per_unit) ∧
    (∀ (db : DB) (i : Nat) (f : MutualFund) (u : Rat),
      db.mutual_funds.find? (fun x => x.mutual_fund_id == i) = some f →
      0 < u → u = f.total_units →
      (okVal (update_mutual_fund_balances db i (-u) (-(u * f.average_cost_per_unit)))).map
          MutualFund.average_cost_per_unit = some 0) ∧
    (∀ (db : DB) (i : Nat) (p : PhysicalAsset) (u c : Rat) (pr : Option Rat),
      db.physical_assets.find? (fun x => x.physical_asset_id == i) = some p →
      0 ≤ p.total_quantity → 0 < u →
      (okVal (update_asset_quantities_and_costs db i u c pr)).map
          PhysicalAsset.average_cost_per_unit =
        some ((p.total_quantity * p.average_cost_per_unit + c) / (p.total_quantity + u))) ∧
    (∀ (db : DB) (i : Nat) (p : PhysicalAsset) (u : Rat) (pr : Option Rat),
      db.physical_assets.find? (fun x => x.physical_asset_id == i) = some p →
      0 < u → u < p.total_quantity →
      (okVal (update_asset_quantities_and_costs db i (-u) 0 pr)).map
          PhysicalAsset.average_cost_per_unit = some p.average_cost_per_unit) ∧
    (∀ (db : DB) (i : Nat) (p : PhysicalAsset) (u : Rat) (pr : Option Rat),
      db.physical_assets.find? (fun x => x.physical_asset_id == i) = some p →
      0 < u → u = p.total_quantity →
      (okVal (update_asset_quantities_and_costs db i (-u) 0 pr)).map
          PhysicalAsset.average_cost_per_unit = some 0) := by
  refine ⟨?_, ?_, ?_, ?_, ?_, ?_⟩
  · intro db i f u c hf h0 hu
    unfold update_mutual_fund_balances
    rw [hf]
    dsimp only
    rw [if_neg (by linarith), if_neg (by intro hz; linarith)]
    simp [okVal]
  · intro db i f u hf hu hlt
    unfold update_mutual_fund_balances
    rw [hf]
    dsimp only
    rw [if_neg (by linarith), if_neg (by intro hz; linarith)]
    simp only [okVal, Option.map_some]
    have hne : f.total_units + -u ≠ 0 := by intro hz; linarith
    field_simp
    ring
  · intro db i f u hf hu heq
    unfold update_mutual_fund_balances
    rw [hf]
    dsimp only
    rw [if_neg (by linarith), if_pos (by linarith)]
    simp [okVal]
  · intro db i p u c pr hp h0 hu
    unfold update_asset_quantities_and_costs
    rw [hp]
    dsimp only
    rw [if_neg (by linarith), if_neg (by intro hz; linarith), if_pos hu]
    simp [okVal]
  · intro db i p u pr hp hu hlt
    unfold update_asset_quantities_and_costs
    rw [hp]
    dsimp only
    rw [if_neg (by linarith), if_neg (by intro hz; linarith), if_neg (by intro hgt; linarith)]
    simp [okVal]
  · intro db i p u pr hp hu heq
    unfold update_asset_quantities_and_costs
    rw [hp]
    dsimp only
    rw [if_neg (by linarith), if_pos (by linarith)]
    simp [okVal]

/-- Witness for C2: buys and sells on the one-unit positions of `c2db`. -/
theorem C2_witness :
    ((okVal (update_mutual_fund_balances c2db 1 3 21)).map
        MutualFund.average_cost_per_unit =
      some (((1 : Rat) * 1 + 21) / (1 + 3))) ∧
    ((okVal (update_mutual_fund_balances exDB 1
          (-1) (-(1 * exFund.average_cost_per_unit)))).map
        MutualFund.average_cost_per_unit = some exFund.average_cost_per_unit) ∧
    ((okVal (update_asset_quantities_and_costs exDB 1 (-1) 0 none)).map
        PhysicalAsset.average_cost_per_unit = some exAsset.average_cost_per_unit) ∧
    ((okVal (update_asset_quantities_and_costs c2db 1 (-1) 0 none)).map
        PhysicalAsset.average_cost_per_unit = some 0) := by
  refine ⟨?_, ?_, ?_, ?_⟩
  · have := C2_weighted_average_cost.1 c2db 1 c2fund 3 21
      (by decide) (by norm_num [c2fund]) (by norm_num)
    simpa [c2fund] using this
  · exact C2_weighted_average_cost.2.1 exDB 1 exFund 1 (by decide) (by norm_num)
      (by norm_num [exFund])
  · exact C2_weighted_average_cost.2.2.2.2.1 exDB 1 exAsset 1 none (by decide)
      (by norm_num) (by norm_num [exAsset])
  · exact C2_weighted_average_cost.2.2.2.2.2 c2db 1 c2asset 1 none
      (by decide) (by norm_num) (by norm_num [c2asset])

/-! ## C4 — split-sum mismatch is raised after the row and balance commit -/

/-- An empty asset account. -/
def c4account : Account := {
  account_id := 1, ledger_id := 1, user_id := 7, name := "Cash",
  type := "asset", is_group := false,
  opening_balance := 0, balance := 0, net_balance := 0 }

/-- A store holding only `c4account`. -/
def c4db : DB := { accounts := [c4account] }

/-- An income split transaction of credit 100 whose single split carries
credit 40 — the split credits do not sum to the transaction credit. -/
def c4tc : TransactionCreate := {
  account_id := 1, type := "income", credit := 100, debit := 0, date := 0,
  is_split := true, splits := some [{ category_id := 1, credit := 40, debit := 0 }] }

/-- C4 evaluated at the mismatching input: `create_transaction` raises the
split-mismatch validation error, but the transaction row and the account
balance update were committed before the check ran and survive it (the
source's `db.rollback()` has nothing pending), so state does persist —
contradicting the claim that nothing does.  Only the splits are absent. -/
theorem C4_split_mismatch_state_persists :
    errOf (create_transaction c4db c4tc) = some .splitCreditMismatch ∧
    (resDB (create_transaction c4db c4tc)).transactions.length = 1 ∧
    ((resDB (create_transaction c4db c4tc)).accounts.map Account.balance) = [100] ∧
    ((resDB (create_transaction c4db c4tc)).accounts.map Account.net_balance) = [100] ∧
    (resDB (create_transaction c4db c4tc)).splits = [] ∧
    c4db.transactions = [] ∧ c4db.splits = [] ∧
    (c4db.accounts.map Account.balance) = [0] := by
  have hs : strIn "asset" "asset" = true := by decide
  have hi : strIn "income" "income" = true := by decide
  norm_num [create_transaction, create_transaction_stage2, validate_and_add_splits,
    createTxnBalanceUpdate, setNet, updAccount, addSplits, c4db, c4tc, c4account,
    List.find?, errOf, resDB, hs, hi]

/-! ## C3 — oversell guards: clean for assets, after-commit for funds -/

/-- A brokerage account with balance 100. -/
def c3account : Account := {
  account_id := 1, ledger_id := 1, user_id := 7, name := "Broker",
  type := "asset", is_group := false,
  opening_balance := 0, balance := 100, net_balance := 100 }

/-- A store with the brokerage account and the two-unit fund `exFund`. -/
def c3db : DB := { accounts := [c3account], mutual_funds := [exFund] }

/-- A sell of five fund units when only two are held. -/
def c3sell : MfTransactionCreate := {
  mutual_fund_id := 1, transaction_type := "sell", units := 5,
  amount_excluding_charges := 50, other_charges := 0, account_id := some 1,
  transaction_date := 0 }

/-- A store with the brokerage account and the two-unit asset `exAsset`. -/
def c3adb : DB := { accounts := [c3account], physical_assets := [exAsset] }

/-- A sell of five asset units when only two are held. -/
def c3asell : AssetTransactionCreate := {
  physical_asset_id := 1, transaction_type := "sell", quantity := 5,
  price_per_unit := 10, account_id := 1, transaction_date := 0 }

/-- C3 evaluated at oversell inputs.  For the physical asset the guard runs
before any mutation and the store is returned untouched.  For the mutual
fund the guard raises the insufficient-units error only *after* the linked
financial transaction and the account-balance credit have been committed:
the error state contains one new transaction row and a balance of 150
against the original 100 (the fund totals themselves are unchanged) —
contradicting the claim that all state is left exactly as before. -/
theorem C3_oversell_guard_not_clean_for_funds :
    create_asset_transaction c3adb 1 c3asell = .error (.insufficientQuantity, c3adb) ∧
    errOf (create_mf_transaction c3db 1 c3sell) = some .insufficientUnits ∧
    (resDB (create_mf_transaction c3db 1 c3sell)).transactions.length = 1 ∧
    ((resDB (create_mf_transaction c3db 1 c3sell)).accounts.map Account.balance) = [150] ∧
    ((resDB (create_mf_transaction c3db 1 c3sell)).accounts.map Account.net_balance) = [150] ∧
    (resDB (create_mf_transaction c3db 1 c3sell)).mutual_funds = [exFund] ∧
    c3db.transactions = [] ∧ (c3db.accounts.map Account.balance) = [100] := by
  constructor
  · norm_num [create_asset_transaction, c3adb, c3asell, c3account, exAsset, List.find?]
  · have hsb : ¬ (("sell" : String) = "buy") := by decide
    norm_num [create_mf_transaction, mf_buy_sell, exBind, updAccount, updFund,
      c3db, c3sell, c3account, exFund, List.find?, errOf, resDB, hsb]

/-! ## C1 — the net-balance invariant is preserved by every mutator -/

/-- C1: every balance-mutating operation of the core — transaction create,
forward or reverse balance application, MF transaction create and delete,
asset transaction create and delete, account create and update — preserves
`net_balance = opening_balance + balance` for every account in the store, on
the success path and on every error path's committed state alike. -/
theorem C1_net_balance_invariant :
    (∀ (db : DB) (tc : TransactionCreate),
      dbInv db → dbInv (resDB (create_transaction db tc))) ∧
    (∀ (db : DB) (i : Nat) (c d : Rat) (rev : Bool),
      dbInv db → dbInv (resDB (update_account_balance db i c d rev))) ∧
    (∀ (db : DB) (lid : Nat) (td : MfTransactionCreate),
      dbInv db → dbInv (resDB (create_mf_transaction db lid td))) ∧
    (∀ (db : DB) (i : Nat),
      dbInv db → dbInv (resDB (delete_mf_transaction db i))) ∧
    (∀ (db : DB) (lid : Nat) (td : AssetTransactionCreate),
      dbInv db → dbInv (resDB (create_asset_transaction db lid td))) ∧
    (∀ (db : DB) (i : Nat),
      dbInv db → dbInv (resDB (delete_asset_transaction db i))) ∧
    (∀ (db : DB) (lid : Nat) (ac : AccountCreate),
      dbInv db → dbInv (resDB (create_account db lid ac))) ∧
    (∀ (db : DB) (i : Nat) (au : AccountUpdate),
      dbInv db → dbInv (resDB (update_account db i au))) :=
  ⟨inv_create_transaction, inv_update_account_balance, inv_create_mf_transaction,
   inv_delete_mf_transaction, inv_create_asset_transaction, inv_delete_asset_transaction,
   inv_create_account, inv_update_account⟩

/-- Witness for C1: the invariant holds of the store `exDB` and is preserved
by one concrete call of each of the eight mutators. -/
theorem C1_witness :
    dbInv exDB ∧
    dbInv (resDB (create_transaction exDB
      { account_id := 1, type := "income", credit := 50, debit := 0, date := 0 })) ∧
    dbInv (resDB (update_account_balance exDB 1 50 0 false)) ∧
    dbInv (resDB (create_mf_transaction exDB 1 c3sell)) ∧
    dbInv (resDB (delete_mf_transaction exDB 1)) ∧
    dbInv (resDB (create_asset_transaction exDB 1 c3asell)) ∧
    dbInv (resDB (delete_asset_transaction exDB 1)) ∧
    dbInv (resDB (create_account exDB 1
      { name := "Loans", type := "liability", opening_balance := 5 })) ∧
    dbInv (resDB (update_account exDB 1 { opening_balance := some 7 })) := by
  have h : dbInv exDB := by norm_num [dbInv, accsInv, accInv, exDB, exAccount]
  exact ⟨h, C1_net_balance_invariant.1 _ _ h,
    C1_net_balance_invariant.2.1 _ _ _ _ _ h,
    C1_net_balance_invariant.2.2.1 _ _ _ h,
    C1_net_balance_invariant.2.2.2.1 _ _ h,
    C1_net_balance_invariant.2.2.2.2.1 _ _ _ h,
    C1_net_balance_invariant.2.2.2.2.2.1 _ _ h,
    C1_net_balance_invariant.2.2.2.2.2.2.1 _ _ _ h,
    C1_net_balance_invariant.2.2.2.2.2.2.2 _ _ _ h⟩

/-! ## C5 — deleting an asset transaction replays the remaining history -/

/-- The claim's replay step, written from its words: fold buy/sell effects
over a running `(quantity, average cost, cost basis)` state, recalculating
the average cost only on buys, holding it constant on sells, and forcing
quantity and cost to zero when a replayed sell would oversell. -/
def specReplayStep (s : Rat × Rat × Rat) (tx : AssetTransaction) : Rat × Rat × Rat :=
  let (q, avg, cost) := s
  if tx.transaction_type == "buy" then
    let q' := q + tx.quantity
    let cost' := cost + tx.total_amount
    (q', if q' > 0 then cost' / q' else avg, cost')
  else if tx.transaction_type == "sell" then
    if q ≥ tx.quantity then (q - tx.quantity, avg, cost - tx.quantity * avg)
    else (0, avg, 0)
  else s

/-- The claim's replay: fold the remaining history from the zero state and
read off `(total_quantity, average_cost_per_unit)`, zeroing both when the
folded quantity is not positive. -/
def specReplay (txs : List AssetTransaction) : Rat × Rat :=
  let r := txs.foldl specReplayStep (0, 0, 0)
  if r.1 ≤ 0 then (0, 0) else (r.1, r.2.1)

theorem updAsset_cons (x : PhysicalAsset) (xs : List PhysicalAsset) (j : Nat)
    (g : PhysicalAsset → PhysicalAsset) :
    updAsset (x :: xs) j g =
      (if x.physical_asset_id == j then g x else x) :: updAsset xs j g := rfl

theorem find_updAsset_const {l : List PhysicalAsset} {j : Nat} {pa : PhysicalAsset}
    (h : l.find? (fun p => p.physical_asset_id == j) = some pa)
    (A : PhysicalAsset) (hA : (A.physical_asset_id == j) = true) :
    (updAsset l j (fun _ => A)).find? (fun p => p.physical_asset_id == j) = some A := by
  induction l with
  | nil => simp [List.find?] at h
  | cons x xs ih =>
    rw [updAsset_cons]
    cases hx : (x.physical_asset_id == j) with
    | true =>
      rw [if_pos rfl]
      simp only [List.find?_cons, hA]
    | false =>
      simp only [List.find?_cons, hx] at h
      rw [if_neg Bool.false_ne_true]
      simp only [List.find?_cons, hx]
      exact ih h

/-- C5: deleting an asset transaction succeeds, removes exactly its row and
its linked financial transaction, and leaves the asset's
`(total_quantity, average_cost_per_unit)` equal to the claim's fold of the
remaining history — sorted ascending by `(transaction_date, created_at)` —
from the zero state. -/
theorem C5_delete_replays_history (db : DB) (i : Nat) (tx : AssetTransaction)
    (pa : PhysicalAsset)
    (htx : db.asset_transactions.find? (fun t => t.asset_transaction_id == i) = some tx)
    (hpa : db.physical_assets.find?
      (fun p => p.physical_asset_id == tx.physical_asset_id) = some pa) :
    Except.isOk (delete_asset_transaction db i) = true ∧
    (resDB (delete_asset_transaction db i)).asset_transactions =
      db.asset_transactions.filter (fun t => t.asset_transaction_id != i) ∧
    (resDB (delete_asset_transaction db i)).transactions =
      db.transactions.filter (fun t => t.transaction_id != tx.financial_transaction_id) ∧
    ((resDB (delete_asset_transaction db i)).physical_assets.find?
        (fun p => p.physical_asset_id == tx.physical_asset_id)).map
        (fun p => (p.total_quantity, p.average_cost_per_unit)) =
      some (specReplay (sortByDateCreated
        ((db.asset_transactions.filter (fun t => t.asset_transaction_id != i)).filter
          (fun t => t.physical_asset_id == tx.physical_asset_id)))) := by
  have hpid : pa.physical_asset_id = tx.physical_asset_id := by
    have h1 := List.find?_some hpa
    simpa using h1
  unfold delete_asset_transaction
  rw [htx]
  dsimp only
  rw [hpa]
  dsimp only
  cases hacc : db.accounts.find? (fun a => a.account_id == tx.account_id) with
  | none =>
    refine ⟨rfl, rfl, rfl, ?_⟩
    simp only [resDB]
    rw [hpid, find_updAsset_const hpa]
    · rfl
    · simp
  | some acc =>
    refine ⟨rfl, rfl, rfl, ?_⟩
    simp only [resDB]
    rw [hpid, find_updAsset_const hpa]
    · rfl
    · simp

/-- Witness history: buy ten at five. -/
def c5buy1 : AssetTransaction := {
  asset_transaction_id := 1, ledger_id := 1, physical_asset_id := 1,
  transaction_type := "buy", quantity := 10, price_per_unit := 5,
  total_amount := 50, account_id := 1, financial_transaction_id := 11,
  transaction_date := 1, created_at := 1 }

/-- Witness history: buy ten at seven (the row to delete). -/
def c5buy2 : AssetTransaction := {
  asset_transaction_id := 2, ledger_id := 1, physical_asset_id := 1,
  transaction_type := "buy", quantity := 10, price_per_unit := 7,
  total_amount := 70, account_id := 1, financial_transaction_id := 12,
  transaction_date := 2, created_at := 2 }

/-- Witness history: sell five at six. -/
def c5sold : AssetTransaction := {
  asset_transaction_id := 3, ledger_id := 1, physical_asset_id := 1,
  transaction_type := "sell", quantity := 5, price_per_unit := 6,
  total_amount := 30, account_id := 1, financial_transaction_id := 13,
  transaction_date := 3, created_at := 3 }

/-- The asset position after the three witness transactions. -/
def c5pa : PhysicalAsset := {
  physical_asset_id := 1, ledger_id := 1, total_quantity := 15,
  average_cost_per_unit := 6, latest_price_per_unit := 6, current_value := 90 }

/-- The witness store: spec §8's delete-replay scenario. -/
def c5db : DB := {
  accounts := [c3account], physical_assets := [c5pa],
  asset_transactions := [c5buy1, c5buy2, c5sold] }

/-- Witness for C5: deleting the middle buy of `[buy 10@5, buy 10@7, sell 5]`
replays the remaining two transactions from zero. -/
theorem C5_witness :
    Except.isOk (delete_asset_transaction c5db 2) = true ∧
    (resDB (delete_asset_transaction c5db 2)).asset_transactions =
      c5db.asset_transactions.filter (fun t => t.asset_transaction_id != 2) ∧
    (resDB (delete_asset_transaction c5db 2)).transactions =
      c5db.transactions.filter
        (fun t => t.transaction_id != c5buy2.financial_transaction_id) ∧
    ((resDB (delete_asset_transaction c5db 2)).physical_assets.find?
        (fun p => p.physical_asset_id == c5buy2.physical_asset_id)).map
        (fun p => (p.total_quantity, p.average_cost_per_unit)) =
      some (specReplay (sortByDateCreated
        ((c5db.asset_transactions.filter (fun t => t.asset_transaction_id != 2)).filter
          (fun t => t.physical_asset_id == c5buy2.physical_asset_id)))) :=
  C5_delete_replays_history c5db 2 c5buy2 c5pa (by decide) (by decide)

/-! ## C7 — a no-op update leaves the account balance unchanged -/

theorem updAccount_cons (x : Account) (xs : List Account) (j : Nat)
    (g : Account → Account) :
    updAccount (x :: xs) j g =
      (if x.account_id == j then g x else x) :: updAccount xs j g := rfl

theorem find_updAccount_const {l : List Account} {j : Nat} {a : Account}
    (h : l.find? (fun x => x.account_id == j) = some a)
    (A : Account) (hA : (A.account_id == j) = true) :
    (updAccount l j (fun _ => A)).find? (fun x => x.account_id == j) = some A := by
  induction l with
  | nil => simp [List.find?] at h
  | cons x xs ih =>
    rw [updAccount_cons]
    cases hx : (x.account_id == j) with
    | true =>
      rw [if_pos rfl]
      simp only [List.find?_cons, hA]
    | false =>
      simp only [List.find?_cons, hx] at h
      rw [if_neg Bool.false_ne_true]
      simp only [List.find?_cons, hx]
      exact ih h

/-- Reverse-then-reapply on `update_account_balance_core` with the original
amounts is the identity on the account, provided the transaction is simple
(credit xor debit positive) and the account satisfies the balance
invariant. -/
theorem core_roundtrip (a : Account) (c d : Rat)
    (hs : (c > 0 ∧ d = 0) ∨ (d > 0 ∧ c = 0)) (hinv : accInv a) :
    ∃ a1, update_account_balance_core a c d true = .ok a1 ∧
      a1.account_id = a.account_id ∧
      update_account_balance_core a1 c d false = .ok a := by
  rcases hs with ⟨hc, hd⟩ | ⟨hd, hc⟩
  · by_cases hA : strIn "asset" a.type = true
    · refine ⟨setNet { a with balance := a.balance - c }, ?_, rfl, ?_⟩
      · simp [update_account_balance_core, hc, hd, hA]
      · simp [update_account_balance_core, hc, hd, hA, setNet]
        rw [← hinv]
    · by_cases hL : strIn "liability" a.type = true
      · refine ⟨setNet { a with balance := a.balance + c }, ?_, rfl, ?_⟩
        · simp [update_account_balance_core, hc, hd, hA, hL]
        · simp [update_account_balance_core, hc, hd, hA, hL, setNet]
          rw [← hinv]
      · refine ⟨setNet a, ?_, rfl, ?_⟩
        · simp [update_account_balance_core, hc, hd, hA, hL]
        · simp [update_account_balance_core, hc, hd, hA, hL, setNet]
          rw [← hinv]
  · by_cases hA : strIn "asset" a.type = true
    · refine ⟨setNet { a with balance := a.balance + d }, ?_, rfl, ?_⟩
      · simp [update_account_balance_core, hc, hd, hA, lt_irrefl]
      · simp [update_account_balance_core, hc, hd, hA, lt_irrefl, setNet]
        rw [← hinv]
    · by_cases hL : strIn "liability" a.type = true
      · refine ⟨setNet { a with balance := a.balance - d }, ?_, rfl, ?_⟩
        · simp [update_account_balance_core, hc, hd, hA, hL, lt_irrefl]
        · simp [update_account_balance_core, hc, hd, hA, hL, lt_irrefl, setNet]
          rw [← hinv]
      · refine ⟨setNet a, ?_, rfl, ?_⟩
        · simp [update_account_balance_core, hc, hd, hA, hL, lt_irrefl]
        · simp [update_account_balance_core, hc, hd, hA, hL, lt_irrefl, setNet]
          rw [← hinv]

/-- C7: updating a simple (non-split, credit-xor-debit) transaction with an
all-unset patch succeeds, returns the row unchanged, and leaves the owning
account — balance and net balance included — exactly as it was, because the
original effect is reversed before the identical new effect is reapplied. -/
theorem C7_noop_update_restores_account (db : DB) (tid uid : Nat) (t : Txn) (a : Account)
    (ht : db.transactions.find? (fun x => x.transaction_id == tid) = some t)
    (ha : db.accounts.find? (fun x => x.account_id == t.account_id) = some a)
    (huser : a.user_id = uid)
    (hsimple : (t.credit > 0 ∧ t.debit = 0) ∨ (t.debit > 0 ∧ t.credit = 0))
    (hinv : accInv a) :
    ∃ db', update_transaction db tid {} uid = .ok (db', t) ∧
      db'.accounts.find? (fun x => x.account_id == t.account_id) = some a := by
  obtain ⟨a1, h1, hid1, h2⟩ := core_roundtrip a t.credit t.debit hsimple hinv
  have haid : (a.account_id == t.account_id) = true := by
    have := List.find?_some ha
    simpa using this
  have ha1id : (a1.account_id == t.account_id) = true := by rw [hid1]; exact haid
  unfold update_transaction
  rw [ht]
  dsimp only
  rw [ha]
  dsimp only
  rw [if_neg (by simp [huser])]
  unfold update_account_balance
  rw [ha]
  dsimp only
  rw [h1]
  dsimp only [applyTxnPatch]
  rw [find_updAccount_const ha a1 ha1id]
  dsimp only
  rw [h2]
  dsimp only
  refine ⟨_, rfl, ?_⟩
  exact find_updAccount_const (find_updAccount_const ha a1 ha1id) a haid

/-- A simple expense transaction of 200 against `exAccount`. -/
def c7txn : Txn := { transaction_id := 1, account_id := 1, credit := 0, debit := 200, date := 0 }

/-- The witness store for the no-op update. -/
def c7db : DB := { accounts := [exAccount], transactions := [c7txn] }

/-- Witness for C7: a no-op patch on the expense row of `c7db` succeeds and
returns `exAccount` unchanged. -/
theorem C7_witness :
    Except.isOk (update_transaction c7db 1 {} 7) = true ∧
    okVal (update_transaction c7db 1 {} 7) = some c7txn ∧
    (resDB (update_transaction c7db 1 {} 7)).accounts.find?
      (fun x => x.account_id == c7txn.account_id) = some exAccount := by
  obtain ⟨db', h1, h2⟩ := C7_noop_update_restores_account c7db 1 7 c7txn exAccount
    (by decide) (by decide) rfl (Or.inr ⟨by norm_num [c7txn], rfl⟩)
    (by norm_num [accInv, exAccount])
  rw [h1]
  exact ⟨rfl, rfl, h2⟩

/-- The create-side balance update never touches the account id. -/
theorem createTxnBalanceUpdate_account_id (a : Account) (ty : String) (c d : Rat) :
    (createTxnBalanceUpdate a ty c d).account_id = a.account_id := by
  unfold createTxnBalanceUpdate setNet
  dsimp only
  repeat' split
  all_goals rfl

/-- The create-side balance update never touches the owning user. -/
theorem createTxnBalanceUpdate_user_id (a : Account) (ty : String) (c d : Rat) :
    (createTxnBalanceUpdate a ty c d).user_id = a.user_id := by
  unfold createTxnBalanceUpdate setNet
  dsimp only
  repeat' split
  all_goals rfl

/-- Reversing an expense leg's effect with `update_account_balance_core`
restores the account exactly, balance and net balance included. -/
theorem expense_leg_roundtrip (a : Account) (amt : Rat) (hamt : 0 < amt)
    (hinv : accInv a) :
    update_account_balance_core (createTxnBalanceUpdate a "expense" 0 amt) 0 amt true =
      .ok a := by
  have hie : strIn "income" "expense" = false := by decide
  have hee : strIn "expense" "expense" = true := by decide
  by_cases hA : strIn "asset" a.type = true
  · simp [createTxnBalanceUpdate, update_account_balance_core, setNet, hA, hie, hee, hamt,
      lt_irrefl]
    rw [← hinv]
  · by_cases hL : strIn "liability" a.type = true
    · simp [createTxnBalanceUpdate, update_account_balance_core, setNet, hA, hL, hie, hee,
        hamt, lt_irrefl]
      rw [← hinv]
    · simp [createTxnBalanceUpdate, update_account_balance_core, setNet, hA, hL, hie, hee,
        hamt, lt_irrefl]
      rw [← hinv]

/-- Reversing an income leg's effect with `update_account_balance_core`
restores the account exactly, balance and net balance included. -/
theorem income_leg_roundtrip (a : Account) (amt : Rat) (hamt : 0 < amt)
    (hinv : accInv a) :
    update_account_balance_core (createTxnBalanceUpdate a "income" amt 0) amt 0 true =
      .ok a := by
  have hii : strIn "income" "income" = true := by decide
  by_cases hA : strIn "asset" a.type = true
  · simp [createTxnBalanceUpdate, update_account_balance_core, setNet, hA, hii, hamt]
    rw [← hinv]
  · by_cases hL : strIn "liability" a.type = true
    · simp [createTxnBalanceUpdate, update_account_balance_core, setNet, hA, hL, hii, hamt]
      rw [← hinv]
    · simp [createTxnBalanceUpdate, update_account_balance_core, setNet, hA, hL, hii, hamt]
      rw [← hinv]

/-- `find?` skips a prefix on which the predicate is everywhere false. -/
theorem find_append_none {α : Type} (p : α → Bool) {l1 : List α} (l2 : List α)
    (h : ∀ x ∈ l1, p x = false) : (l1 ++ l2).find? p = l2.find? p := by
  induction l1 with
  | nil => rfl
  | cons x xs ih =>
    have hx := h x (List.mem_cons_self x xs)
    simp only [List.cons_append, List.find?_cons, hx]
    exact ih fun y hy => h y (List.mem_cons_of_mem x hy)

/-- `filter` drops a list on which the predicate is everywhere false. -/
theorem filter_all_false {α : Type} (p : α → Bool) {l : List α}
    (h : ∀ x ∈ l, p x = false) : l.filter p = [] := by
  induction l with
  | nil => rfl
  | cons x xs ih =>
    have hx := h x (List.mem_cons_self x xs)
    simp only [List.filter_cons, hx, Bool.false_eq_true, if_false]
    exact ih fun y hy => h y (List.mem_cons_of_mem x hy)

/-- `filter` keeps a list on which the predicate is everywhere true. -/
theorem filter_all_true {α : Type} (p : α → Bool) {l : List α}
    (h : ∀ x ∈ l, p x = true) : l.filter p = l := by
  induction l with
  | nil => rfl
  | cons x xs ih =>
    have hx := h x (List.mem_cons_self x xs)
    simp only [List.filter_cons, hx, if_true]
    rw [ih fun y hy => h y (List.mem_cons_of_mem x hy)]

/-- The row `create_transaction` persists for a request. -/
def rowOf (db : DB) (tc : TransactionCreate) : Txn := {
  transaction_id := db.next_transaction_id
  account_id := tc.account_id
  category_id := tc.category_id
  credit := tc.credit
  debit := tc.debit
  date := tc.date
  is_split := tc.is_split
  is_transfer := tc.is_transfer
  is_asset_transaction := tc.is_asset_transaction
  is_mf_transaction := false
  transfer_id := tc.transfer_id
  transfer_type := tc.transfer_type }

/-- Evaluation of `create_transaction` on a non-split, untagged request
against an existing non-group account: the row is appended, the account
takes the balance effect, the id counter advances. -/
theorem create_transaction_spec {db : DB} {tc : TransactionCreate} (acct : Account)
    (hg : acct.is_group = false)
    (hfind : db.accounts.find? (fun a => a.account_id == tc.account_id) = some acct)
    (hsplit : tc.is_split = false)
    (htags : tc.tags = none) :
    create_transaction db tc = .ok (
      { db with
        accounts := updAccount db.accounts tc.account_id
          (fun a => createTxnBalanceUpdate a tc.type tc.credit tc.debit),
        transactions := db.transactions ++ [rowOf db tc],
        next_transaction_id := db.next_transaction_id + 1 },
      rowOf db tc) := by
  unfold create_transaction
  rw [hfind]
  dsimp only
  rw [hg, if_neg Bool.false_ne_true]
  unfold create_transaction_stage2 validate_and_add_splits
  dsimp only
  rw [if_neg (by simp [hsplit])]
  dsimp only
  rw [if_neg (by simp [htags])]
  rfl

/-- The expense leg row `create_transfer_transaction` writes on the source
account. -/
def transferOutRow (db : DB) (tr : TransferCreate) : Txn := {
  transaction_id := db.next_transaction_id
  account_id := tr.source_account_id
  credit := 0
  debit := tr.source_amount
  date := tr.date
  is_transfer := true
  transfer_id := some db.next_transfer_id
  transfer_type := some "source" }

/-- The income leg row `create_transfer_transaction` writes on the
destination account. -/
def transferInRow (db : DB) (tr : TransferCreate) (dAmt : Rat) : Txn := {
  transaction_id := db.next_transaction_id + 1
  account_id := tr.destination_account_id
  credit := dAmt
  debit := 0
  date := tr.date
  is_transfer := true
  transfer_id := some db.next_transfer_id
  transfer_type := some "destination" }

/-- The store a successful transfer leaves behind when the accounts table
held exactly the source `A` and the destination `B`. -/
def postTransferDB (db0 : DB) (tr : TransferCreate) (A B : Account) (dAmt : Rat) : DB :=
  { db0 with
    accounts := [createTxnBalanceUpdate A "expense" 0 tr.source_amount,
                 createTxnBalanceUpdate B "income" dAmt 0],
    transactions := db0.transactions ++ [transferOutRow db0 tr] ++ [transferInRow db0 tr dAmt],
    next_transaction_id := db0.next_transaction_id + 1 + 1,
    next_transfer_id := db0.next_transfer_id + 1 }

/-- Evaluation of a successful `transfer_legs` call on a store whose
accounts table holds exactly the source `A` and the destination `B`. -/
theorem transfer_legs_spec (db0 : DB) (tr : TransferCreate) (A B : Account) (dAmt : Rat)
    (hacc : db0.accounts = [A, B])
    (hsrc : tr.source_account_id = A.account_id)
    (hdst : tr.destination_account_id = B.account_id)
    (hne : A.account_id ≠ B.account_id)
    (hgA : A.is_group = false) (hgB : B.is_group = false)
    (htags : tr.tags = none)
    (hS : 0 < tr.source_amount) (hD : 0 < dAmt) :
    transfer_legs db0 tr dAmt = .ok (postTransferDB db0 tr A B dAmt) := by
  have hABf : (A.account_id == B.account_id) = false := by
    rw [beq_eq_false_iff_ne]; exact hne
  have hBAf : (B.account_id == A.account_id) = false := by
    rw [beq_eq_false_iff_ne]; exact fun h => hne h.symm
  unfold transfer_legs
  rw [if_neg (by push_neg; exact ⟨hS, hD⟩)]
  dsimp only
  rw [create_transaction_spec A hgA]
  · dsimp only
    rw [create_transaction_spec B hgB]
    · dsimp only
      unfold postTransferDB transferOutRow transferInRow rowOf
      rw [hsrc, hdst, hacc]
      have haccs : updAccount
          (updAccount [A, B] A.account_id
            (fun a => createTxnBalanceUpdate a "expense" 0 tr.source_amount))
          B.account_id (fun a => createTxnBalanceUpdate a "income" dAmt 0) =
          [createTxnBalanceUpdate A "expense" 0 tr.source_amount,
           createTxnBalanceUpdate B "income" dAmt 0] := by
        simp [updAccount, hABf, hBAf, hne, Ne.symm hne, createTxnBalanceUpdate_account_id]
      rw [haccs]
    · simp [hacc, hsrc, hdst, updAccount, hBAf, hABf, hne, Ne.symm hne,
        createTxnBalanceUpdate_account_id, List.find?_cons]
    · rfl
    · exact htags
  · simp [hacc, hsrc, List.find?_cons]
  · rfl
  · exact htags

/-- Reversing and removing both legs of a fresh transfer pair restores both
accounts exactly and leaves the transactions table as it was. -/
theorem transfer_pair_delete (db0 : DB) (tr : TransferCreate) (A B : Account) (dAmt : Rat)
    (hsrc : tr.source_account_id = A.account_id)
    (hdst : tr.destination_account_id = B.account_id)
    (hne : A.account_id ≠ B.account_id)
    (hS : 0 < tr.source_amount) (hD : 0 < dAmt)
    (hids : ∀ t ∈ db0.transactions, t.transaction_id < db0.next_transaction_id)
    (hinvA : accInv A) (hinvB : accInv B) :
    deleteTransactionList (postTransferDB db0 tr A B dAmt)
      [transferOutRow db0 tr, transferInRow db0 tr dAmt] =
      .ok { db0 with
        accounts := [A, B],
        next_transaction_id := db0.next_transaction_id + 1 + 1,
        next_transfer_id := db0.next_transfer_id + 1 } := by
  have hABf : (A.account_id == B.account_id) = false := by
    rw [beq_eq_false_iff_ne]; exact hne
  have hBAf : (B.account_id == A.account_id) = false := by
    rw [beq_eq_false_iff_ne]; exact fun h => hne h.symm
  have hA'id : (createTxnBalanceUpdate A "expense" 0 tr.source_amount).account_id =
      A.account_id := createTxnBalanceUpdate_account_id A "expense" 0 tr.source_amount
  have hB'id : (createTxnBalanceUpdate B "income" dAmt 0).account_id =
      B.account_id := createTxnBalanceUpdate_account_id B "income" dAmt 0
  have hr1 : update_account_balance_core (createTxnBalanceUpdate A "expense" 0 tr.source_amount)
      0 tr.source_amount true = .ok A := expense_leg_roundtrip A tr.source_amount hS hinvA
  have hr2 : update_account_balance_core (createTxnBalanceUpdate B "income" dAmt 0)
      dAmt 0 true = .ok B := income_leg_roundtrip B dAmt hD hinvB
  have hne21 : ((db0.next_transaction_id + 1 != db0.next_transaction_id)) = true := by
    rw [bne_iff_ne]; omega
  have hT1acc : (transferOutRow db0 tr).account_id = A.account_id := hsrc
  have hT1cred : (transferOutRow db0 tr).credit = 0 := rfl
  have hT1deb : (transferOutRow db0 tr).debit = tr.source_amount := rfl
  have hT1id : (transferOutRow db0 tr).transaction_id = db0.next_transaction_id := rfl
  have hT2acc : (transferInRow db0 tr dAmt).account_id = B.account_id := hdst
  have hT2cred : (transferInRow db0 tr dAmt).credit = dAmt := rfl
  have hT2deb : (transferInRow db0 tr dAmt).debit = 0 := rfl
  have hT2id : (transferInRow db0 tr dAmt).transaction_id = db0.next_transaction_id + 1 := rfl
  have hPacc : (postTransferDB db0 tr A B dAmt).accounts =
      [createTxnBalanceUpdate A "expense" 0 tr.source_amount,
       createTxnBalanceUpdate B "income" dAmt 0] := rfl
  have hPtx : (postTransferDB db0 tr A B dAmt).transactions =
      db0.transactions ++ [transferOutRow db0 tr] ++ [transferInRow db0 tr dAmt] := rfl
  have hfA' : List.find? (fun x => x.account_id == A.account_id)
      [createTxnBalanceUpdate A "expense" 0 tr.source_amount,
       createTxnBalanceUpdate B "income" dAmt 0] =
      some (createTxnBalanceUpdate A "expense" 0 tr.source_amount) := by
    simp [List.find?_cons, hA'id]
  have hupd1 : updAccount [createTxnBalanceUpdate A "expense" 0 tr.source_amount,
      createTxnBalanceUpdate B "income" dAmt 0] A.account_id (fun _ => A) =
      [A, createTxnBalanceUpdate B "income" dAmt 0] := by
    simp [updAccount, hA'id, hB'id, hBAf, hne, Ne.symm hne]
  have hrem1 : (db0.transactions ++ [transferOutRow db0 tr] ++
      [transferInRow db0 tr dAmt]).filter
      (fun x => x.transaction_id != db0.next_transaction_id) =
      db0.transactions ++ [transferInRow db0 tr dAmt] := by
    rw [List.filter_append, List.filter_append]
    rw [filter_all_true]
    · simp [hT1id, hT2id, hne21, List.filter_cons]
    · intro t ht
      rw [bne_iff_ne]
      have := hids t ht
      omega
  have hfB2 : List.find? (fun x => x.account_id == B.account_id)
      [A, createTxnBalanceUpdate B "income" dAmt 0] =
      some (createTxnBalanceUpdate B "income" dAmt 0) := by
    simp [List.find?_cons, hABf, hB'id, hne, Ne.symm hne]
  have hupd2 : updAccount [A, createTxnBalanceUpdate B "income" dAmt 0]
      B.account_id (fun _ => B) = [A, B] := by
    simp [updAccount, hABf, hB'id, hne, Ne.symm hne]
  have hrem2 : (db0.transactions ++ [transferInRow db0 tr dAmt]).filter
      (fun x => x.transaction_id != db0.next_transaction_id + 1) =
      db0.transactions := by
    rw [List.filter_append]
    rw [filter_all_true]
    · simp [hT2id, List.filter_cons]
    · intro t ht
      rw [bne_iff_ne]
      have := hids t ht
      omega
  unfold deleteTransactionList deleteOneTransaction update_account_balance
  rw [hPacc, hT1acc, hfA']
  dsimp only
  rw [hT1cred, hT1deb, hr1]
  dsimp only
  rw [hPtx, hupd1, hT1id, hrem1]
  unfold deleteTransactionList deleteOneTransaction update_account_balance
  dsimp only
  rw [hT2acc, hfB2]
  dsimp only
  rw [hT2cred, hT2deb, hr2]
  dsimp only
  rw [hupd2, hT2id, hrem2]
  unfold deleteTransactionList
  rfl

/-- `delete_transaction` on either leg of a fresh transfer pair succeeds and
returns the pre-transfer store (the consumed id counters aside): both legs
are gone and both accounts are exactly restored. -/
theorem transfer_delete_phase (db0 : DB) (tr : TransferCreate) (A B : Account)
    (uid legid : Nat) (dAmt : Rat)
    (hacc : db0.accounts = [A, B])
    (hsrc : tr.source_account_id = A.account_id)
    (hdst : tr.destination_account_id = B.account_id)
    (hne : A.account_id ≠ B.account_id)
    (huA : A.user_id = uid) (huB : B.user_id = uid)
    (hS : 0 < tr.source_amount) (hD : 0 < dAmt)
    (hids : ∀ t ∈ db0.transactions, t.transaction_id < db0.next_transaction_id)
    (hfresh : ∀ t ∈ db0.transactions, t.transfer_id ≠ some db0.next_transfer_id)
    (hinvA : accInv A) (hinvB : accInv B)
    (hleg : legid = db0.next_transaction_id ∨ legid = db0.next_transaction_id + 1) :
    delete_transaction (postTransferDB db0 tr A B dAmt) legid uid =
      .ok { db0 with next_transaction_id := db0.next_transaction_id + 1 + 1,
                     next_transfer_id := db0.next_transfer_id + 1 } := by
  have hABf : (A.account_id == B.account_id) = false := by
    rw [beq_eq_false_iff_ne]; exact hne
  have hA'id : (createTxnBalanceUpdate A "expense" 0 tr.source_amount).account_id =
      A.account_id := createTxnBalanceUpdate_account_id A "expense" 0 tr.source_amount
  have hB'id : (createTxnBalanceUpdate B "income" dAmt 0).account_id =
      B.account_id := createTxnBalanceUpdate_account_id B "income" dAmt 0
  have hA'u : (createTxnBalanceUpdate A "expense" 0 tr.source_amount).user_id = uid := by
    rw [createTxnBalanceUpdate_user_id, huA]
  have hB'u : (createTxnBalanceUpdate B "income" dAmt 0).user_id = uid := by
    rw [createTxnBalanceUpdate_user_id, huB]
  have hT1acc : (transferOutRow db0 tr).account_id = A.account_id := hsrc
  have hT1id : (transferOutRow db0 tr).transaction_id = db0.next_transaction_id := rfl
  have hT1tr : (transferOutRow db0 tr).is_transfer = true := rfl
  have hT1tid : (transferOutRow db0 tr).transfer_id = some db0.next_transfer_id := rfl
  have hT2acc : (transferInRow db0 tr dAmt).account_id = B.account_id := hdst
  have hT2id : (transferInRow db0 tr dAmt).transaction_id = db0.next_transaction_id + 1 := rfl
  have hT2tr : (transferInRow db0 tr dAmt).is_transfer = true := rfl
  have hT2tid : (transferInRow db0 tr dAmt).transfer_id = some db0.next_transfer_id := rfl
  have hPacc : (postTransferDB db0 tr A B dAmt).accounts =
      [createTxnBalanceUpdate A "expense" 0 tr.source_amount,
       createTxnBalanceUpdate B "income" dAmt 0] := rfl
  have hPtx : (postTransferDB db0 tr A B dAmt).transactions =
      db0.transactions ++ [transferOutRow db0 tr] ++ [transferInRow db0 tr dAmt] := rfl
  have hne12 : (db0.next_transaction_id == db0.next_transaction_id + 1) = false := by
    rw [beq_eq_false_iff_ne]; omega
  have hfA' : List.find? (fun x => x.account_id == A.account_id)
      [createTxnBalanceUpdate A "expense" 0 tr.source_amount,
       createTxnBalanceUpdate B "income" dAmt 0] =
      some (createTxnBalanceUpdate A "expense" 0 tr.source_amount) := by
    simp [List.find?_cons, hA'id]
  have hfB' : List.find? (fun x => x.account_id == B.account_id)
      [createTxnBalanceUpdate A "expense" 0 tr.source_amount,
       createTxnBalanceUpdate B "income" dAmt 0] =
      some (createTxnBalanceUpdate B "income" dAmt 0) := by
    simp [List.find?_cons, hA'id, hB'id, hne, Ne.symm hne]
  have hfind1 : ((db0.transactions ++ [transferOutRow db0 tr]) ++
      [transferInRow db0 tr dAmt]).find?
      (fun t => t.transaction_id == db0.next_transaction_id) =
      some (transferOutRow db0 tr) := by
    rw [List.append_assoc, List.singleton_append, find_append_none]
    · simp [List.find?_cons, hT1id]
    · intro t ht
      rw [beq_eq_false_iff_ne]
      have := hids t ht
      omega
  have hfind2 : ((db0.transactions ++ [transferOutRow db0 tr]) ++
      [transferInRow db0 tr dAmt]).find?
      (fun t => t.transaction_id == db0.next_transaction_id + 1) =
      some (transferInRow db0 tr dAmt) := by
    rw [List.append_assoc, List.singleton_append, find_append_none]
    · simp [List.find?_cons, hT1id, hT2id, hne12]
    · intro t ht
      rw [beq_eq_false_iff_ne]
      have := hids t ht
      omega
  have hfilt : ((db0.transactions ++ [transferOutRow db0 tr]) ++
      [transferInRow db0 tr dAmt]).filter
      (fun t => t.transfer_id == some db0.next_transfer_id) =
      [transferOutRow db0 tr, transferInRow db0 tr dAmt] := by
    rw [List.filter_append, List.filter_append, filter_all_false]
    · simp [List.filter_cons, hT1tid, hT2tid]
    · intro t ht
      rw [beq_eq_false_iff_ne]
      exact hfresh t ht
  unfold delete_transaction
  rw [hPtx]
  rcases hleg with h | h
  · subst h
    rw [hfind1]
    dsimp only
    rw [hPacc, hT1acc, hfA']
    dsimp only
    rw [hA'u]
    rw [if_neg (by simp)]
    rw [if_pos hT1tr]
    rw [hT1tid, hfilt]
    rw [if_neg (by simp)]
    rw [transfer_pair_delete db0 tr A B dAmt hsrc hdst hne hS hD hids hinvA hinvB]
    rw [← hacc]
  · subst h
    rw [hfind2]
    dsimp only
    rw [hPacc, hT2acc, hfB']
    dsimp only
    rw [hB'u]
    rw [if_neg (by simp)]
    rw [if_pos hT2tr]
    rw [hT2tid, hfilt]
    rw [if_neg (by simp)]
    rw [transfer_pair_delete db0 tr A B dAmt hsrc hdst hne hS hD hids hinvA hinvB]
    rw [← hacc]

/-- C6: on a store holding exactly two distinct non-group accounts `A` and
`B` of one user, a valid transfer (same-ledger, or cross-ledger with an
explicit positive destination amount) followed by `delete_transaction` on
either created leg succeeds and returns the pre-transfer store with only the
consumed id counters advanced: both legs are removed and both accounts'
balance and net balance are restored exactly. -/
theorem C6_transfer_then_delete_roundtrip (db0 : DB) (tr : TransferCreate) (A B : Account)
    (uid legid : Nat)
    (hacc : db0.accounts = [A, B])
    (hsrc : tr.source_account_id = A.account_id)
    (hdst : tr.destination_account_id = B.account_id)
    (hne : A.account_id ≠ B.account_id)
    (huA : A.user_id = uid) (huB : B.user_id = uid)
    (hgA : A.is_group = false) (hgB : B.is_group = false)
    (htags : tr.tags = none)
    (hS : 0 < tr.source_amount)
    (hled : (A.ledger_id = B.ledger_id ∧ tr.destination_amount = none) ∨
            (A.ledger_id ≠ B.ledger_id ∧ ∃ v, tr.destination_amount = some v ∧ 0 < v))
    (hids : ∀ t ∈ db0.transactions, t.transaction_id < db0.next_transaction_id)
    (hfresh : ∀ t ∈ db0.transactions, t.transfer_id ≠ some db0.next_transfer_id)
    (hinvA : accInv A) (hinvB : accInv B)
    (hleg : legid = db0.next_transaction_id ∨ legid = db0.next_transaction_id + 1) :
    ∃ db1, create_transfer_transaction db0 tr uid = .ok db1 ∧
      delete_transaction db1 legid uid =
        .ok { db0 with next_transaction_id := db0.next_transaction_id + 1 + 1,
                       next_transfer_id := db0.next_transfer_id + 1 } := by
  have hABf : (A.account_id == B.account_id) = false := by
    rw [beq_eq_false_iff_ne]; exact hne
  have hfindA : List.find? (fun a => a.account_id == A.account_id) [A, B] = some A := by
    simp [List.find?_cons]
  have hfindB : List.find? (fun a => a.account_id == B.account_id) [A, B] = some B := by
    simp [List.find?_cons, hABf, hne, Ne.symm hne]
  unfold create_transfer_transaction
  rw [hacc, hsrc, hdst, hfindA, hfindB]
  dsimp only
  rw [hABf, if_neg Bool.false_ne_true]
  rw [huA, huB, if_neg (by simp)]
  rw [if_neg (by simp [hgA, hgB])]
  rcases hled with ⟨hl, hdn⟩ | ⟨hl, v, hdv, hv⟩
  · have hlt : (A.ledger_id == B.ledger_id) = true := by
      rw [hl]; exact beq_self_eq_true B.ledger_id
    rw [hlt, if_pos rfl, hdn]
    dsimp only
    rw [transfer_legs_spec db0 tr A B tr.source_amount hacc hsrc hdst hne hgA hgB htags hS hS]
    refine ⟨_, rfl, ?_⟩
    have hdel := transfer_delete_phase db0 tr A B uid legid tr.source_amount hacc hsrc hdst hne
      huA huB hS hS hids hfresh hinvA hinvB hleg
    rw [hacc] at hdel
    exact hdel
  · have hlf : (A.ledger_id == B.ledger_id) = false := by
      rw [beq_eq_false_iff_ne]; exact hl
    rw [hlf, if_neg Bool.false_ne_true, hdv]
    dsimp only
    rw [transfer_legs_spec db0 tr A B v hacc hsrc hdst hne hgA hgB htags hS hv]
    refine ⟨_, rfl, ?_⟩
    have hdel := transfer_delete_phase db0 tr A B uid legid v hacc hsrc hdst hne
      huA huB hS hv hids hfresh hinvA hinvB hleg
    rw [hacc] at hdel
    exact hdel

/-- The destination account for the transfer round-trip witness. -/
def c6B : Account := {
  account_id := 2, ledger_id := 1, user_id := 7, name := "Savings",
  type := "asset", is_group := false,
  opening_balance := 10, balance := 40, net_balance := 50 }

/-- The witness store for the transfer round-trip. -/
def c6db : DB := { accounts := [exAccount, c6B] }

/-- A same-ledger transfer of 100 from account 1 to account 2. -/
def c6tr : TransferCreate := {
  source_account_id := 1, destination_account_id := 2,
  source_amount := 100, destination_amount := none, date := 0 }

/-- Witness for C6: on `c6db` the transfer succeeds and deleting its first
leg returns the original store with only the id counters advanced. -/
theorem C6_witness :
    ∃ db1, create_transfer_transaction c6db c6tr 7 = .ok db1 ∧
      delete_transaction db1 1 7 =
        .ok { c6db with next_transaction_id := 3, next_transfer_id := 2 } :=
  C6_transfer_then_delete_roundtrip c6db c6tr exAccount c6B 7 1 rfl rfl rfl
    (by decide) rfl rfl rfl rfl rfl (by norm_num [c6tr])
    (Or.inl ⟨rfl, rfl⟩)
    (fun t ht => absurd ht (List.not_mem_nil t))
    (fun t ht => absurd ht (List.not_mem_nil t))
    (by norm_num [accInv, exAccount]) (by norm_num [accInv, c6B])
    (Or.inl rfl)

end Cashio
